import Mathlib

/-!
Verification of the AUT.710 exercise repository (differential-drive ensemble
propagation, `server_task1.py`, and EKF localization with landmark data
association, `server_task2.py`).

The numerical core is embedded shallowly over an arbitrary linear ordered
field `F`.  Transcendental functions (`cos`, `sin`, `sqrt`) and `pi` have no
algebraic definition inside the programs; they are supplied through a context
record `Ctx`, instantiated with `Real.cos`, `Real.sin`, `Real.sqrt`, `Real.pi`
for the claims that depend on their analytic values, and with computable
functions over `ℚ` when a witness has to be evaluated.
-/

/-- External real-analytic operations used by the two scripts. -/
structure Ctx (F : Type) where
  cos : F → F
  sin : F → F
  sqrt : F → F
  pi : F

/-- A 3-vector, used for poses `(x, y, yaw)`, EKF states, measurement rows
and the per-tick diagnostic columns (`dist`, `mahalanobis`). -/
structure Vec3 (F : Type) where
  v0 : F
  v1 : F
  v2 : F
  deriving DecidableEq

/-- A 3x3 matrix, used for the covariance `P`, the Jacobians `A`, `L` and the
process noise `M`. -/
structure Mat3 (F : Type) where
  m00 : F
  m01 : F
  m02 : F
  m10 : F
  m11 : F
  m12 : F
  m20 : F
  m21 : F
  m22 : F
  deriving DecidableEq

variable {F : Type} [LinearOrderedField F]

def vadd (u v : Vec3 F) : Vec3 F :=
  ⟨u.v0 + v.v0, u.v1 + v.v1, u.v2 + v.v2⟩

def vsmul (c : F) (u : Vec3 F) : Vec3 F :=
  ⟨c * u.v0, c * u.v1, c * u.v2⟩

def vget (u : Vec3 F) (j : Fin 3) : F :=
  if j = 0 then u.v0 else if j = 1 then u.v1 else u.v2

def vset (u : Vec3 F) (j : Fin 3) (x : F) : Vec3 F :=
  if j = 0 then ⟨x, u.v1, u.v2⟩
  else if j = 1 then ⟨u.v0, x, u.v2⟩
  else ⟨u.v0, u.v1, x⟩

def dot3 (u v : Vec3 F) : F :=
  u.v0 * v.v0 + u.v1 * v.v1 + u.v2 * v.v2

def mulVec (A : Mat3 F) (v : Vec3 F) : Vec3 F :=
  ⟨A.m00 * v.v0 + A.m01 * v.v1 + A.m02 * v.v2,
   A.m10 * v.v0 + A.m11 * v.v1 + A.m12 * v.v2,
   A.m20 * v.v0 + A.m21 * v.v1 + A.m22 * v.v2⟩

/-- `h P hᵀ` for a measurement row `h` (numpy `H[j] @ P @ H[j].T`). -/
def quadForm (h : Vec3 F) (P : Mat3 F) : F :=
  dot3 h (mulVec P h)

/-- Outer product `u vᵀ` (numpy `K @ H[j]` for a column `K` and a row `H[j]`). -/
def outer3 (u v : Vec3 F) : Mat3 F :=
  ⟨u.v0 * v.v0, u.v0 * v.v1, u.v0 * v.v2,
   u.v1 * v.v0, u.v1 * v.v1, u.v1 * v.v2,
   u.v2 * v.v0, u.v2 * v.v1, u.v2 * v.v2⟩

def madd (A B : Mat3 F) : Mat3 F :=
  ⟨A.m00 + B.m00, A.m01 + B.m01, A.m02 + B.m02,
   A.m10 + B.m10, A.m11 + B.m11, A.m12 + B.m12,
   A.m20 + B.m20, A.m21 + B.m21, A.m22 + B.m22⟩

def msub (A B : Mat3 F) : Mat3 F :=
  ⟨A.m00 - B.m00, A.m01 - B.m01, A.m02 - B.m02,
   A.m10 - B.m10, A.m11 - B.m11, A.m12 - B.m12,
   A.m20 - B.m20, A.m21 - B.m21, A.m22 - B.m22⟩

def msmul (c : F) (A : Mat3 F) : Mat3 F :=
  ⟨c * A.m00, c * A.m01, c * A.m02,
   c * A.m10, c * A.m11, c * A.m12,
   c * A.m20, c * A.m21, c * A.m22⟩

def mmul (A B : Mat3 F) : Mat3 F :=
  ⟨A.m00 * B.m00 + A.m01 * B.m10 + A.m02 * B.m20,
   A.m00 * B.m01 + A.m01 * B.m11 + A.m02 * B.m21,
   A.m00 * B.m02 + A.m01 * B.m12 + A.m02 * B.m22,
   A.m10 * B.m00 + A.m11 * B.m10 + A.m12 * B.m20,
   A.m10 * B.m01 + A.m11 * B.m11 + A.m12 * B.m21,
   A.m10 * B.m02 + A.m11 * B.m12 + A.m12 * B.m22,
   A.m20 * B.m00 + A.m21 * B.m10 + A.m22 * B.m20,
   A.m20 * B.m01 + A.m21 * B.m11 + A.m22 * B.m21,
   A.m20 * B.m02 + A.m21 * B.m12 + A.m22 * B.m22⟩

def mtrans (A : Mat3 F) : Mat3 F :=
  ⟨A.m00, A.m10, A.m20,
   A.m01, A.m11, A.m21,
   A.m02, A.m12, A.m22⟩

def ident3 (F : Type) [LinearOrderedField F] : Mat3 F :=
  ⟨1, 0, 0, 0, 1, 0, 0, 0, 1⟩

/-- The CovarianceMaintainer of both estimators: `P = 0.5 * (P + P.T)`. -/
def msymm (P : Mat3 F) : Mat3 F :=
  msmul (1 / 2) (madd P (mtrans P))

def trace3 (P : Mat3 F) : F :=
  P.m00 + P.m11 + P.m22

def pick3 {α : Type} (j : Fin 3) (x0 x1 x2 : α) : α :=
  if j = 0 then x0 else if j = 1 then x1 else x2

/-- `np.argmin` over a 3-element list: index of the first minimum. -/
def argmin3 (x0 x1 x2 : F) : Fin 3 :=
  if x0 ≤ x1 ∧ x0 ≤ x2 then 0 else if x1 ≤ x2 then 1 else 2

namespace Server2

/-! Embedding of `py_server_3/server_task2.py` (EKF, "Exercise 03 Problem 02").
Constants from the head of the file: `D = 0.44`, `Radius = 0.12`,
`R = np.eye(3) * 0.000025`, `M = [[0.001,0,0],[0,0.0002,0],[0,0,0.0002]]`,
landmarks `L0 = (7.5, -4.0)`, `L1 = (-5.0, 8.0)`, `L2 = (-7.0, -6.5)`. -/

def Dhalf (F : Type) [LinearOrderedField F] : F := 11 / 25

def Radius (F : Type) [LinearOrderedField F] : F := 3 / 25

/-- The common diagonal entry `R[j, j]` of `R = np.eye(3) * 0.000025`. -/
def Rmeas (F : Type) [LinearOrderedField F] : F := 1 / 40000

def Mnoise (F : Type) [LinearOrderedField F] : Mat3 F :=
  ⟨1 / 1000, 0, 0, 0, 1 / 5000, 0, 0, 0, 1 / 5000⟩

def Lx (F : Type) [LinearOrderedField F] (j : Fin 3) : F :=
  if j = 0 then 15 / 2 else if j = 1 then -5 else -7

def Ly (F : Type) [LinearOrderedField F] (j : Fin 3) : F :=
  if j = 0 then -4 else if j = 1 then 8 else -13 / 2

/-- The mutable server state: pose `(x, y, yaw)`, the persistent state-transition
Jacobian `self.A` and the covariance `self.P`. -/
structure EKF (F : Type) where
  x : F
  y : F
  yaw : F
  A : Mat3 F
  P : Mat3 F
  deriving DecidableEq

/-- `Server.__init__`: zero pose, `A = np.eye(3)`, `P = np.eye(3) * 0.1`. -/
def initState (F : Type) [LinearOrderedField F] : EKF F :=
  ⟨0, 0, 0, ident3 F, msmul (1 / 10) (ident3 F)⟩

/-- `rot_head = interval * Radius * (wr - wl) / (2 * D)` with generic wheel
radius and axle constant (the two scripts use different values). -/
def motionRot (dt rw dc wl wr : F) : F :=
  dt * rw * (wr - wl) / (2 * dc)

/-- `trans_head = interval * Radius * (wr + wl) / 2`. -/
def motionTrans (dt rw wl wr : F) : F :=
  dt * rw * (wr + wl) / 2

def rotHead (interval wl wr : F) : F :=
  motionRot interval (Radius F) (Dhalf F) wl wr

def transHead (interval wl wr : F) : F :=
  motionTrans interval (Radius F) wl wr

/-- `Server.step_calculation` (the EKF predict step).  The stored Jacobian
`self.A` is carried over and only its `[0,2]` and `[1,2]` entries are
overwritten, exactly as in the source. -/
def stepCalculation (c : Ctx F) (s : EKF F) (wl wr interval : F) : EKF F :=
  let rot := rotHead interval wl wr
  let tr := transHead interval wl wr
  let cv := c.cos (s.yaw + rot)
  let sv := c.sin (s.yaw + rot)
  let A1 : Mat3 F :=
    ⟨s.A.m00, s.A.m01, -tr * sv,
     s.A.m10, s.A.m11, tr * cv,
     s.A.m20, s.A.m21, s.A.m22⟩
  let Lm : Mat3 F :=
    ⟨cv, -tr * sv, 0,
     sv, tr * cv, 0,
     0, 1, 1⟩
  let P1 := msymm (madd (mmul (mmul A1 s.P) (mtrans A1))
    (mmul (mmul Lm (Mnoise F)) (mtrans Lm)))
  ⟨s.x + tr * cv, s.y + tr * sv, s.yaw + rot * 2, A1, P1⟩

/-- `dist_hat_j = sqrt((x - Lj[0])**2 + (y - Lj[1])**2)`. -/
def zhat (c : Ctx F) (j : Fin 3) (x y : F) : F :=
  c.sqrt ((x - Lx F j) ^ 2 + (y - Ly F j) ^ 2)

/-- Row `j` of the measurement Jacobian:
`H[j] = [x - Lj[0], y - Lj[1], 0] / dist_hat_j`. -/
def Hrow (c : Ctx F) (j : Fin 3) (x y : F) : Vec3 F :=
  ⟨(x - Lx F j) / zhat c j x y, (y - Ly F j) / zhat c j x y, 0⟩

/-- Innovation covariance `S_ij = H[j] @ P @ H[j].T + R[j, j]`. -/
def Sinnov (P : Mat3 F) (h : Vec3 F) : F :=
  quadForm h P + Rmeas F

/-- Mahalanobis score `X_ij = v.T * inv(S) * v` for scalar `v`, `S`. -/
def mahScore (S v : F) : F :=
  v * (1 / S) * v

/-- `j = np.argmin(Xi)` for measurement `z` against the three landmarks,
given the covariance current at that point of the loop. -/
def chosenIdx (zh0 zh1 zh2 : F) (h0 h1 h2 : Vec3 F) (P : Mat3 F) (z : F) : Fin 3 :=
  argmin3 (mahScore (Sinnov P h0) (z - zh0))
    (mahScore (Sinnov P h1) (z - zh1))
    (mahScore (Sinnov P h2) (z - zh2))

/-- The `for i in range(0,3): if self.dist[i,index]==0.0: ... break` block. -/
def fillFirstEmpty (d : Vec3 F) (w : F) : Vec3 F :=
  if d.v0 = 0 then ⟨w, d.v1, d.v2⟩
  else if d.v1 = 0 then ⟨d.v0, w, d.v2⟩
  else if d.v2 = 0 then ⟨d.v0, d.v1, w⟩
  else d

/-- State threaded through the measurement loop of `Server.update`:
the state vector, covariance, the diagnostic `dist` column, the `temp`
duplicate holder and the `mahalanobis` column. -/
structure MeasState (F : Type) where
  mst : Vec3 F
  mP : Mat3 F
  mdist : Vec3 F
  mtemp : Option F
  mmah : Vec3 F
  deriving DecidableEq

/-- One iteration `i` of the measurement loop in `Server.update`.
`np.linalg.inv` of the 1x1 matrix `S_ij` raises `LinAlgError` exactly when
`S_ij == 0`, which is the only failure point; it is modelled by `none`.
A negative `S_ij` is inverted like any other value. -/
def measStep (zh0 zh1 zh2 : F) (h0 h1 h2 : Vec3 F) (ms : MeasState F) (z : F) :
    Option (MeasState F) :=
  let S0 := Sinnov ms.mP h0
  let S1 := Sinnov ms.mP h1
  let S2 := Sinnov ms.mP h2
  if S0 = 0 ∨ S1 = 0 ∨ S2 = 0 then none else
  let j := chosenIdx zh0 zh1 zh2 h0 h1 h2 ms.mP z
  let hj := pick3 j h0 h1 h2
  let Sj := pick3 j S0 S1 S2
  let zhj := pick3 j zh0 zh1 zh2
  let K := vsmul (1 / Sj) (mulVec ms.mP hj)
  let P1 := msymm (mmul (msub (ident3 F) (outer3 K hj)) ms.mP)
  let st1 := vadd ms.mst (vsmul (z - zhj) K)
  let mah1 := vset ms.mmah j (mahScore Sj (z - zhj))
  let dist1 := if vget ms.mdist j = 0 then vset ms.mdist j z else ms.mdist
  let temp1 := if vget ms.mdist j = 0 then ms.mtemp else some z
  let dist2 := match temp1 with
    | some w => fillFirstEmpty dist1 w
    | none => dist1
  some ⟨st1, P1, dist2, temp1, mah1⟩

/-- `Server.update(dist_0, dist_1, dist_2)`: the three measurements are
processed in arrival order; the final state vector and covariance are written
back (the stored Jacobian `self.A` is untouched by the update). -/
def update (c : Ctx F) (s : EKF F) (d0 d1 d2 : F) :
    Option (EKF F × MeasState F) :=
  let zh0 := zhat c 0 s.x s.y
  let zh1 := zhat c 1 s.x s.y
  let zh2 := zhat c 2 s.x s.y
  let h0 := Hrow c 0 s.x s.y
  let h1 := Hrow c 1 s.x s.y
  let h2 := Hrow c 2 s.x s.y
  let ms0 : MeasState F := ⟨⟨s.x, s.y, s.yaw⟩, s.P, ⟨0, 0, 0⟩, none, ⟨0, 0, 0⟩⟩
  (measStep zh0 zh1 zh2 h0 h1 h2 ms0 d0).bind fun m1 =>
    (measStep zh0 zh1 zh2 h0 h1 h2 m1 d1).bind fun m2 =>
      (measStep zh0 zh1 zh2 h0 h1 h2 m2 d2).bind fun m3 =>
        some (⟨m3.mst.v0, m3.mst.v1, m3.mst.v2, s.A, m3.mP⟩, m3)

/-- The three data-association decisions taken inside one `Server.update`
call, in measurement-arrival order. -/
def chosenSeq (c : Ctx F) (s : EKF F) (d0 d1 d2 : F) :
    Option (Fin 3 × Fin 3 × Fin 3) :=
  let zh0 := zhat c 0 s.x s.y
  let zh1 := zhat c 1 s.x s.y
  let zh2 := zhat c 2 s.x s.y
  let h0 := Hrow c 0 s.x s.y
  let h1 := Hrow c 1 s.x s.y
  let h2 := Hrow c 2 s.x s.y
  let ms0 : MeasState F := ⟨⟨s.x, s.y, s.yaw⟩, s.P, ⟨0, 0, 0⟩, none, ⟨0, 0, 0⟩⟩
  (measStep zh0 zh1 zh2 h0 h1 h2 ms0 d0).bind fun m1 =>
    (measStep zh0 zh1 zh2 h0 h1 h2 m1 d1).bind fun m2 =>
      some (chosenIdx zh0 zh1 zh2 h0 h1 h2 ms0.mP d0,
        chosenIdx zh0 zh1 zh2 h0 h1 h2 m1.mP d1,
        chosenIdx zh0 zh1 zh2 h0 h1 h2 m2.mP d2)

end Server2

namespace Server1

/-! Embedding of `py_server_3/server_task1.py` (Monte-Carlo ensemble).
Constants: `INTERVAL = 0.1`, `D = 0.4`, `R = 0.1`,
`UNCERTAINTY_MODEL = [20, 6, 25, 8]`. -/

/-- The `# Regulate the psi` block: a single `±2π` wrap. -/
def wrapYaw (c : Ctx F) (v : F) : F :=
  if c.pi < v then v - 2 * c.pi else if v < -c.pi then v + 2 * c.pi else v

/-- `wl = wl * pi / 30` (RPM to rad/s conversion at the top of
`step_calculation`). -/
def rpmToRad (c : Ctx F) (w : F) : F :=
  w * c.pi / 30

/-- `epsilon_rot = a1 * rot_head**2 + a2 * trans_head**2` with
`(a1, a2) = (20, 6)`. -/
def epsRot (rot tr : F) : F :=
  20 * rot ^ 2 + 6 * tr ^ 2

/-- `epsilon_trans = a3 * trans_head**2 + a4 * 2 * rot_head**2` with
`(a3, a4) = (25, 8)`. -/
def epsTrans (rot tr : F) : F :=
  25 * tr ^ 2 + 8 * 2 * rot ^ 2

/-- Per-tick step of the noiseless reference member (`i = 0`), raw wheel
speeds in RPM. -/
def stepRef (c : Ctx F) (p : Vec3 F) (wlraw wrraw : F) : Vec3 F :=
  let wl := rpmToRad c wlraw
  let wr := rpmToRad c wrraw
  let rot := Server2.motionRot (1 / 10) (1 / 10) (2 / 5) wl wr
  let tr := Server2.motionTrans (1 / 10) (1 / 10) wl wr
  ⟨p.v0 + tr * c.cos (p.v2 + rot),
   p.v1 + tr * c.sin (p.v2 + rot),
   wrapYaw c (p.v2 + 2 * rot)⟩

/-- Per-tick step of a noisy member (`i > 0`), with the three Gaussian draws
`sigma_rot_1`, `sigma_rot_2`, `sigma_trans` passed in as values. -/
def stepNoisy (c : Ctx F) (p : Vec3 F) (sr1 sr2 st : F) : Vec3 F :=
  ⟨p.v0 + st * c.cos (p.v2 + sr1),
   p.v1 + st * c.sin (p.v2 + sr1),
   wrapYaw c (p.v2 + sr1 + sr2)⟩

end Server1

/-- Modelled from the spec's description of duplicate handling (§4.5), for
comparison against `Server2.update`: the value of a measurement whose matched
slot is occupied is held, and only after all three measurements are processed
are held values written into still-empty slots.  `j0 j1 j2` are the matched
landmark indices and `z0 z1 z2` the raw measurement values. -/
def specDistFill (j0 j1 j2 : Fin 3) (z0 z1 z2 : F) : Vec3 F :=
  let put := fun (dh : Vec3 F × List F) (j : Fin 3) (z : F) =>
    if vget dh.1 j = 0 then (vset dh.1 j z, dh.2) else (dh.1, dh.2 ++ [z])
  let r := put (put (put (⟨0, 0, 0⟩, []) j0 z0) j1 z1) j2 z2
  r.2.foldl Server2.fillFirstEmpty r.1

/-! ## Helper lemmas -/

lemma mtrans_msymm (M : Mat3 F) : mtrans (msymm M) = msymm M := by
  simp only [msymm, madd, mtrans, msmul, Mat3.mk.injEq]
  refine ⟨?_, ?_, ?_, ?_, ?_, ?_, ?_, ?_, ?_⟩ <;> ring

lemma mulVec_vsmul (P : Mat3 F) (t : F) (u : Vec3 F) :
    mulVec P (vsmul t u) = vsmul t (mulVec P u) := by
  simp only [mulVec, vsmul, Vec3.mk.injEq]
  refine ⟨?_, ?_, ?_⟩ <;> ring

lemma vsmul_vsmul (s t : F) (u : Vec3 F) :
    vsmul s (vsmul t u) = vsmul (s * t) u := by
  simp only [vsmul, Vec3.mk.injEq]
  refine ⟨?_, ?_, ?_⟩ <;> ring

lemma quadForm_vsmul (t : F) (u : Vec3 F) (P : Mat3 F) :
    quadForm (vsmul t u) P = t ^ 2 * quadForm u P := by
  simp only [quadForm, dot3, mulVec, vsmul]
  ring

lemma Sinnov_vsmul (t : F) (u : Vec3 F) (P : Mat3 F) :
    Server2.Sinnov P (vsmul t u) = t ^ 2 * quadForm u P + Server2.Rmeas F := by
  simp only [Server2.Sinnov, quadForm_vsmul]

lemma outer_scaled (s t : F) (P : Mat3 F) (u : Vec3 F) :
    outer3 (vsmul s (mulVec P (vsmul t u))) (vsmul t u) =
      msmul (s * t ^ 2) (outer3 (mulVec P u) u) := by
  simp only [outer3, vsmul, mulVec, msmul, Mat3.mk.injEq]
  refine ⟨?_, ?_, ?_, ?_, ?_, ?_, ?_, ?_, ?_⟩ <;> ring

lemma mahScore_eq (S v : F) : Server2.mahScore S v = v ^ 2 / S := by
  simp only [Server2.mahScore]
  ring

lemma pick3_comp {α β : Type} (f : α → β) (j : Fin 3) (x0 x1 x2 : α) :
    pick3 j (f x0) (f x1) (f x2) = f (pick3 j x0 x1 x2) := by
  simp only [pick3]
  split_ifs <;> rfl

lemma argmin3_min (x0 x1 x2 : F) (j : Fin 3) :
    pick3 (argmin3 x0 x1 x2) x0 x1 x2 ≤ pick3 j x0 x1 x2 := by
  have hj : pick3 j x0 x1 x2 = x0 ∨ pick3 j x0 x1 x2 = x1 ∨ pick3 j x0 x1 x2 = x2 := by
    fin_cases j
    · exact Or.inl rfl
    · exact Or.inr (Or.inl rfl)
    · exact Or.inr (Or.inr rfl)
  unfold argmin3
  by_cases h1 : x0 ≤ x1 ∧ x0 ≤ x2
  · rw [if_pos h1, show pick3 (0 : Fin 3) x0 x1 x2 = x0 from rfl]
    rcases hj with h | h | h <;> rw [h]
    · exact h1.1
    · exact h1.2
  · by_cases h2 : x1 ≤ x2
    · rw [if_neg h1, if_pos h2, show pick3 (1 : Fin 3) x0 x1 x2 = x1 from rfl]
      have hx : x1 ≤ x0 := by
        by_contra hcon
        push_neg at hcon
        exact h1 ⟨le_of_lt hcon, le_trans (le_of_lt hcon) h2⟩
      rcases hj with h | h | h <;> rw [h]
      · exact hx
      · exact h2
    · rw [if_neg h1, if_neg h2, show pick3 (2 : Fin 3) x0 x1 x2 = x2 from rfl]
      push_neg at h2
      have hx : x2 ≤ x0 := by
        by_contra hcon
        push_neg at hcon
        exact h1 ⟨le_of_lt (lt_trans hcon h2), le_of_lt hcon⟩
      rcases hj with h | h | h <;> rw [h]
      · exact hx
      · exact le_of_lt h2

lemma measStep_none_iff (zh0 zh1 zh2 : F) (h0 h1 h2 : Vec3 F)
    (ms : Server2.MeasState F) (z : F) :
    Server2.measStep zh0 zh1 zh2 h0 h1 h2 ms z = none ↔
      Server2.Sinnov ms.mP h0 = 0 ∨ Server2.Sinnov ms.mP h1 = 0 ∨
        Server2.Sinnov ms.mP h2 = 0 := by
  simp only [Server2.measStep]
  by_cases h : Server2.Sinnov ms.mP h0 = 0 ∨ Server2.Sinnov ms.mP h1 = 0 ∨
      Server2.Sinnov ms.mP h2 = 0
  · rw [if_pos h]
    simp [h]
  · rw [if_neg h]
    simp [h]

lemma measStep_mP (zh0 zh1 zh2 : F) (h0 h1 h2 : Vec3 F)
    (ms ms' : Server2.MeasState F) (z : F)
    (h : Server2.measStep zh0 zh1 zh2 h0 h1 h2 ms z = some ms') :
    ms'.mP = msymm (mmul (msub (ident3 F)
      (outer3 (vsmul (1 / pick3 (Server2.chosenIdx zh0 zh1 zh2 h0 h1 h2 ms.mP z)
          (Server2.Sinnov ms.mP h0) (Server2.Sinnov ms.mP h1) (Server2.Sinnov ms.mP h2))
        (mulVec ms.mP (pick3 (Server2.chosenIdx zh0 zh1 zh2 h0 h1 h2 ms.mP z) h0 h1 h2)))
        (pick3 (Server2.chosenIdx zh0 zh1 zh2 h0 h1 h2 ms.mP z) h0 h1 h2))) ms.mP) := by
  simp only [Server2.measStep] at h
  by_cases hg : Server2.Sinnov ms.mP h0 = 0 ∨ Server2.Sinnov ms.mP h1 = 0 ∨
      Server2.Sinnov ms.mP h2 = 0
  · rw [if_pos hg] at h
    exact absurd h (by simp)
  · rw [if_neg hg] at h
    simp only [Option.some.injEq] at h
    subst h
    rfl

lemma measStep_some_of (zh0 zh1 zh2 : F) (h0 h1 h2 : Vec3 F)
    (ms : Server2.MeasState F) (z : F)
    (hg : ¬(Server2.Sinnov ms.mP h0 = 0 ∨ Server2.Sinnov ms.mP h1 = 0 ∨
      Server2.Sinnov ms.mP h2 = 0)) :
    (Server2.measStep zh0 zh1 zh2 h0 h1 h2 ms z).isSome = true := by
  simp only [Server2.measStep]
  rw [if_neg hg]
  rfl

lemma update_none_left (c : Ctx F) (s : Server2.EKF F) (d0 d1 d2 : F)
    (h : Server2.Sinnov s.P (Server2.Hrow c 0 s.x s.y) = 0) :
    Server2.update c s d0 d1 d2 = none := by
  simp only [Server2.update]
  rw [(measStep_none_iff (Server2.zhat c 0 s.x s.y) (Server2.zhat c 1 s.x s.y)
    (Server2.zhat c 2 s.x s.y) (Server2.Hrow c 0 s.x s.y) (Server2.Hrow c 1 s.x s.y)
    (Server2.Hrow c 2 s.x s.y) ⟨⟨s.x, s.y, s.yaw⟩, s.P, ⟨0, 0, 0⟩, none, ⟨0, 0, 0⟩⟩ d0).mpr
    (Or.inl h)]
  rfl

lemma Lx0 : Server2.Lx F 0 = 15 / 2 := rfl

lemma Lx1 : Server2.Lx F 1 = -5 := rfl

lemma Lx2 : Server2.Lx F 2 = -7 := rfl

lemma Ly0 : Server2.Ly F 0 = -4 := rfl

lemma Ly1 : Server2.Ly F 1 = 8 := rfl

lemma Ly2 : Server2.Ly F 2 = -13 / 2 := rfl

/-! ## Square-root facts for the landmark geometry seen from the origin -/

lemma sqrt89_sq : Real.sqrt 89 ^ 2 = 89 := Real.sq_sqrt (by norm_num)

lemma sqrt89_pos : 0 < Real.sqrt 89 := Real.sqrt_pos.mpr (by norm_num)

lemma sqrt365_sq : Real.sqrt (365 / 4) ^ 2 = 365 / 4 := Real.sq_sqrt (by norm_num)

lemma sqrt365_pos : 0 < Real.sqrt (365 / 4) := Real.sqrt_pos.mpr (by norm_num)

lemma sqrt89_ne_half17 : Real.sqrt 89 ≠ 17 / 2 := by
  intro h
  have h2 := sqrt89_sq
  rw [h] at h2
  norm_num at h2

lemma sqrt365_ne_half17 : Real.sqrt (365 / 4) ≠ 17 / 2 := by
  intro h
  have h2 := sqrt365_sq
  rw [h] at h2
  norm_num at h2

lemma sqrt365_ne_sqrt89 : Real.sqrt (365 / 4) ≠ Real.sqrt 89 := by
  intro h
  have h2 := sqrt365_sq
  rw [h, sqrt89_sq] at h2
  norm_num at h2

lemma sqrt89_gt : (17 / 2 : ℝ) < Real.sqrt 89 := by
  have h : (17 / 2 : ℝ) = Real.sqrt ((17 / 2) ^ 2) := (Real.sqrt_sq (by norm_num)).symm
  rw [h]
  exact Real.sqrt_lt_sqrt (by positivity) (by norm_num)

lemma sqrt89_lt_ten : Real.sqrt 89 < 10 := by
  have h : (10 : ℝ) = Real.sqrt (10 ^ 2) := (Real.sqrt_sq (by norm_num)).symm
  rw [h]
  exact Real.sqrt_lt_sqrt (by norm_num) (by norm_num)

lemma sqrt365_gt_sqrt89 : Real.sqrt 89 < Real.sqrt (365 / 4) :=
  Real.sqrt_lt_sqrt (by norm_num) (by norm_num)

lemma sqrt365_lt_ten : Real.sqrt (365 / 4) < 10 := by
  have h : (10 : ℝ) = Real.sqrt (10 ^ 2) := (Real.sqrt_sq (by norm_num)).symm
  rw [h]
  exact Real.sqrt_lt_sqrt (by norm_num) (by norm_num)

lemma inv_sqrt89_sq : (1 / Real.sqrt 89 : ℝ) ^ 2 = 1 / 89 := by
  rw [div_pow, one_pow, sqrt89_sq]

lemma inv_sqrt365_sq : (1 / Real.sqrt (365 / 4) : ℝ) ^ 2 = 4 / 365 := by
  rw [div_pow, one_pow, sqrt365_sq]
  norm_num

lemma zhat0_origin :
    Server2.zhat (⟨Real.cos, Real.sin, Real.sqrt, Real.pi⟩ : Ctx ℝ) 0 0 0 = 17 / 2 := by
  unfold Server2.zhat
  show Real.sqrt _ = _
  rw [show ((0 - Server2.Lx ℝ 0) ^ 2 + (0 - Server2.Ly ℝ 0) ^ 2 : ℝ) = (17 / 2) ^ 2 by
    rw [Lx0, Ly0]
    norm_num]
  exact Real.sqrt_sq (by norm_num)

lemma zhat1_origin :
    Server2.zhat (⟨Real.cos, Real.sin, Real.sqrt, Real.pi⟩ : Ctx ℝ) 1 0 0 = Real.sqrt 89 := by
  unfold Server2.zhat
  show Real.sqrt _ = _
  rw [show ((0 - Server2.Lx ℝ 1) ^ 2 + (0 - Server2.Ly ℝ 1) ^ 2 : ℝ) = 89 by
    rw [Lx1, Ly1]
    norm_num]

lemma zhat2_origin :
    Server2.zhat (⟨Real.cos, Real.sin, Real.sqrt, Real.pi⟩ : Ctx ℝ) 2 0 0 =
      Real.sqrt (365 / 4) := by
  unfold Server2.zhat
  show Real.sqrt _ = _
  rw [show ((0 - Server2.Lx ℝ 2) ^ 2 + (0 - Server2.Ly ℝ 2) ^ 2 : ℝ) = 365 / 4 by
    rw [Lx2, Ly2]
    norm_num]

lemma hrow0_origin :
    Server2.Hrow (⟨Real.cos, Real.sin, Real.sqrt, Real.pi⟩ : Ctx ℝ) 0 0 0 =
      ⟨-(15 / 17), 8 / 17, 0⟩ := by
  unfold Server2.Hrow
  rw [zhat0_origin, Lx0, Ly0]
  simp only [Vec3.mk.injEq]
  norm_num

lemma hrow1_origin :
    Server2.Hrow (⟨Real.cos, Real.sin, Real.sqrt, Real.pi⟩ : Ctx ℝ) 1 0 0 =
      vsmul (1 / Real.sqrt 89) ⟨5, -8, 0⟩ := by
  unfold Server2.Hrow
  rw [zhat1_origin, Lx1, Ly1]
  simp only [vsmul, Vec3.mk.injEq]
  refine ⟨by ring, by ring, by ring⟩

lemma hrow2_origin :
    Server2.Hrow (⟨Real.cos, Real.sin, Real.sqrt, Real.pi⟩ : Ctx ℝ) 2 0 0 =
      vsmul (1 / Real.sqrt (365 / 4)) ⟨7, 13 / 2, 0⟩ := by
  unfold Server2.Hrow
  rw [zhat2_origin, Lx2, Ly2]
  simp only [vsmul, Vec3.mk.injEq]
  refine ⟨by ring, by ring, by ring⟩

/-! ## Claim theorems -/

/-- C9: the motion model computes `rotation = Δt·Rw·(ωR − ωL)/(2·D)` and
`translation = Δt·Rw·(ωR + ωL)/2`; equal wheel speeds give zero rotation and
`translation = Δt·Rw·ωL`; zero speeds give zero increments; the ensemble
variant's noise variances are `ε_rot = 20·rot² + 6·trans²` and
`ε_trans = 25·trans² + 8·2·rot²`. -/
theorem c9_motion_model :
    (∀ dt wl wr : F,
        Server2.rotHead dt wl wr =
          dt * Server2.Radius F * (wr - wl) / (2 * Server2.Dhalf F) ∧
        Server2.transHead dt wl wr = dt * Server2.Radius F * (wr + wl) / 2) ∧
    (∀ dt rw dc w : F,
        Server2.motionRot dt rw dc w w = 0 ∧
        Server2.motionTrans dt rw w w = dt * rw * w) ∧
    (∀ dt rw dc : F,
        Server2.motionRot dt rw dc 0 0 = 0 ∧ Server2.motionTrans dt rw 0 0 = 0) ∧
    (∀ rot tr : F,
        Server1.epsRot rot tr = 20 * rot ^ 2 + 6 * tr ^ 2 ∧
        Server1.epsTrans rot tr = 25 * tr ^ 2 + 8 * 2 * rot ^ 2) := by
  refine ⟨fun dt wl wr => ⟨rfl, rfl⟩, fun dt rw dc w => ⟨?_, ?_⟩,
    fun dt rw dc => ⟨?_, ?_⟩, fun rot tr => ⟨rfl, rfl⟩⟩
  · simp [Server2.motionRot]
  · rw [Server2.motionTrans]
    ring
  · simp [Server2.motionRot]
  · rw [Server2.motionTrans]
    ring

/-- C1 counterexample: a single EKF predict step of `server_task2.py` with
`wl = 0`, `wr = 88`, `interval = 1` takes the yaw from `0` to `24`, outside
`(-π, π]`: the EKF applies no wrap at all, so the stated invariant fails. -/
theorem c1_counterexample :
    (Server2.stepCalculation ⟨Real.cos, Real.sin, Real.sqrt, Real.pi⟩
        (Server2.initState ℝ) 0 88 1).yaw = 24 ∧
    (24 : ℝ) ∉ Set.Ioc (-Real.pi) Real.pi := by
  constructor
  · show (0 : ℝ) + Server2.rotHead 1 0 88 * 2 = 24
    rw [Server2.rotHead, Server2.motionRot, Server2.Radius, Server2.Dhalf]
    norm_num
  · intro hmem
    have h2 := hmem.2
    have h3 := Real.pi_lt_d2
    linarith

/-- C1 amended: only the ensemble per-tick steps of `server_task1.py` wrap the
yaw, and the single `±2π` wrap returns it into `(-π, π]` exactly when the raw
updated yaw lies in `(-3π, 3π]` and is not `-π`; the EKF prediction of
`server_task2.py` leaves yaw unwrapped (`yaw' = yaw + 2·rotation`). -/
theorem c1_amended :
    (∀ (c : Ctx F) (v : F), -(3 * c.pi) < v → v ≠ -c.pi → v ≤ 3 * c.pi →
        Server1.wrapYaw c v ∈ Set.Ioc (-c.pi) c.pi) ∧
    (∀ (c : Ctx F) (p : Vec3 F) (sr1 sr2 st : F),
        (Server1.stepNoisy c p sr1 sr2 st).v2 = Server1.wrapYaw c (p.v2 + sr1 + sr2)) ∧
    (∀ (c : Ctx F) (s : Server2.EKF F) (wl wr dt : F),
        (Server2.stepCalculation c s wl wr dt).yaw =
          s.yaw + 2 * Server2.rotHead dt wl wr) := by
  refine ⟨?_, fun c p sr1 sr2 st => rfl, fun c s wl wr dt => ?_⟩
  · intro c v h1 h2 h3
    simp only [Server1.wrapYaw, Set.mem_Ioc]
    split_ifs with ha hb
    · exact ⟨by linarith, by linarith⟩
    · exact ⟨by linarith, by linarith⟩
    · push_neg at ha hb
      exact ⟨lt_of_le_of_ne hb (Ne.symm h2), ha⟩
  · show s.yaw + Server2.rotHead dt wl wr * 2 = _
    ring

/-- C1 amended witness: concrete evaluations over `ℚ` with `pi` set to `3`. -/
theorem c1_amended_witness :
    Server1.wrapYaw (⟨fun _ => 0, fun _ => 0, fun _ => 0, 3⟩ : Ctx ℚ) 4 ∈
      Set.Ioc (-(3 : ℚ)) 3 ∧
    (Server2.stepCalculation (⟨fun _ => 0, fun _ => 0, fun _ => 0, 3⟩ : Ctx ℚ)
        (Server2.initState ℚ) 1 2 1).yaw =
      (Server2.initState ℚ).yaw + 2 * Server2.rotHead 1 1 2 := by
  constructor
  · exact c1_amended.1 (⟨fun _ => 0, fun _ => 0, fun _ => 0, 3⟩ : Ctx ℚ) 4
      (by show -((3 : ℚ) * 3) < 4; norm_num) (by show (4 : ℚ) ≠ -3; norm_num)
      (by show (4 : ℚ) ≤ 3 * 3; norm_num)
  · exact c1_amended.2.2 (⟨fun _ => 0, fun _ => 0, fun _ => 0, 3⟩ : Ctx ℚ)
      (Server2.initState ℚ) 1 2 1

/-- C7: the covariance is exactly symmetric after every EKF predict and after
every per-measurement Kalman update, because both end with `0.5*(P + P.T)`. -/
theorem c7_cov_symmetric :
    (∀ (c : Ctx F) (s : Server2.EKF F) (wl wr dt : F),
        mtrans (Server2.stepCalculation c s wl wr dt).P =
          (Server2.stepCalculation c s wl wr dt).P) ∧
    (∀ (zh0 zh1 zh2 : F) (h0 h1 h2 : Vec3 F) (ms ms' : Server2.MeasState F) (z : F),
        Server2.measStep zh0 zh1 zh2 h0 h1 h2 ms z = some ms' →
          mtrans ms'.mP = ms'.mP) := by
  constructor
  · intro c s wl wr dt
    exact mtrans_msymm _
  · intro zh0 zh1 zh2 h0 h1 h2 ms ms' z h
    rw [measStep_mP zh0 zh1 zh2 h0 h1 h2 ms ms' z h]
    exact mtrans_msymm _

/-- C7 witness: a concrete measurement step over `ℚ` together with the
symmetry of its output covariance. -/
theorem c7_witness :
    Server2.measStep (1 : ℚ) 2 3 ⟨1, 0, 0⟩ ⟨0, 1, 0⟩ ⟨0, 0, 1⟩
        ⟨⟨0, 0, 0⟩, ident3 ℚ, ⟨0, 0, 0⟩, none, ⟨0, 0, 0⟩⟩ 1 =
      some ⟨⟨0, 0, 0⟩, ⟨1 / 40001, 0, 0, 0, 1, 0, 0, 0, 1⟩, ⟨1, 0, 0⟩, none, ⟨0, 0, 0⟩⟩ ∧
    mtrans (⟨1 / 40001, 0, 0, 0, 1, 0, 0, 0, 1⟩ : Mat3 ℚ) =
      ⟨1 / 40001, 0, 0, 0, 1, 0, 0, 0, 1⟩ := by
  constructor
  · norm_num [Server2.measStep, Server2.chosenIdx, argmin3, Server2.Sinnov,
      Server2.mahScore, quadForm, dot3, mulVec, ident3, Server2.Rmeas, pick3, vget, vset,
      vadd, vsmul, msymm, madd, msub, mmul, mtrans, msmul, outer3, Server2.fillFirstEmpty,
      Fin.ext_iff, Vec3.mk.injEq, Mat3.mk.injEq, Server2.MeasState.mk.injEq]
  · exact c7_cov_symmetric.2 1 2 3 ⟨1, 0, 0⟩ ⟨0, 1, 0⟩ ⟨0, 0, 1⟩
      ⟨⟨0, 0, 0⟩, ident3 ℚ, ⟨0, 0, 0⟩, none, ⟨0, 0, 0⟩⟩
      ⟨⟨0, 0, 0⟩, ⟨1 / 40001, 0, 0, 0, 1, 0, 0, 0, 1⟩, ⟨1, 0, 0⟩, none, ⟨0, 0, 0⟩⟩ 1
      (by norm_num [Server2.measStep, Server2.chosenIdx, argmin3, Server2.Sinnov,
      Server2.mahScore, quadForm, dot3, mulVec, ident3, Server2.Rmeas, pick3, vget, vset,
      vadd, vsmul, msymm, madd, msub, mmul, mtrans, msmul, outer3, Server2.fillFirstEmpty,
      Fin.ext_iff, Vec3.mk.injEq, Mat3.mk.injEq, Server2.MeasState.mk.injEq])

/-- C4: the EKF predict step, on any state whose stored Jacobian has the
invariant identity pattern (entries `[0,2]`, `[1,2]` free, as established at
`__init__` and preserved by every step), produces the claimed mean
`(x + t·cos(yaw+r), y + t·sin(yaw+r), yaw + 2r)` and covariance
`A·P·Aᵀ + L·M·Lᵀ` symmetrized, with the claimed `A` and `L`. -/
theorem c4_predict (c : Ctx F) (x y yaw a02 a12 : F) (P : Mat3 F) (wl wr dt : F) :
    Server2.stepCalculation c ⟨x, y, yaw, ⟨1, 0, a02, 0, 1, a12, 0, 0, 1⟩, P⟩ wl wr dt =
      ⟨x + Server2.transHead dt wl wr * c.cos (yaw + Server2.rotHead dt wl wr),
       y + Server2.transHead dt wl wr * c.sin (yaw + Server2.rotHead dt wl wr),
       yaw + 2 * Server2.rotHead dt wl wr,
       ⟨1, 0, -Server2.transHead dt wl wr * c.sin (yaw + Server2.rotHead dt wl wr),
        0, 1, Server2.transHead dt wl wr * c.cos (yaw + Server2.rotHead dt wl wr),
        0, 0, 1⟩,
       msymm (madd
         (mmul (mmul
           ⟨1, 0, -Server2.transHead dt wl wr * c.sin (yaw + Server2.rotHead dt wl wr),
            0, 1, Server2.transHead dt wl wr * c.cos (yaw + Server2.rotHead dt wl wr),
            0, 0, 1⟩ P)
           (mtrans
             ⟨1, 0, -Server2.transHead dt wl wr * c.sin (yaw + Server2.rotHead dt wl wr),
              0, 1, Server2.transHead dt wl wr * c.cos (yaw + Server2.rotHead dt wl wr),
              0, 0, 1⟩))
         (mmul (mmul
           ⟨c.cos (yaw + Server2.rotHead dt wl wr),
            -Server2.transHead dt wl wr * c.sin (yaw + Server2.rotHead dt wl wr), 0,
            c.sin (yaw + Server2.rotHead dt wl wr),
            Server2.transHead dt wl wr * c.cos (yaw + Server2.rotHead dt wl wr), 0,
            0, 1, 1⟩ (Server2.Mnoise F))
           (mtrans
             ⟨c.cos (yaw + Server2.rotHead dt wl wr),
              -Server2.transHead dt wl wr * c.sin (yaw + Server2.rotHead dt wl wr), 0,
              c.sin (yaw + Server2.rotHead dt wl wr),
              Server2.transHead dt wl wr * c.cos (yaw + Server2.rotHead dt wl wr), 0,
              0, 1, 1⟩)))⟩ := by
  simp only [Server2.stepCalculation, Server2.EKF.mk.injEq, and_true, true_and]
  ring

/-- C3: within `Server.update`, each measurement applies, at the matched
landmark `j*` chosen from the current covariance, the sequential Kalman
update `K = P·H_{j*}ᵀ·(1/S)`, `P' = symmetrize((I − K·H_{j*})·P)` and
`state' = state + K·v`. -/
theorem c3_sequential_update :
    ∀ (zh0 zh1 zh2 : F) (h0 h1 h2 : Vec3 F) (ms ms' : Server2.MeasState F) (z : F),
      Server2.measStep zh0 zh1 zh2 h0 h1 h2 ms z = some ms' →
      ∃ j : Fin 3, j = Server2.chosenIdx zh0 zh1 zh2 h0 h1 h2 ms.mP z ∧
        ∃ K : Vec3 F,
          K = vsmul (1 / Server2.Sinnov ms.mP (pick3 j h0 h1 h2))
            (mulVec ms.mP (pick3 j h0 h1 h2)) ∧
          ms'.mP = msymm (mmul (msub (ident3 F) (outer3 K (pick3 j h0 h1 h2))) ms.mP) ∧
          ms'.mst = vadd ms.mst (vsmul (z - pick3 j zh0 zh1 zh2) K) := by
  intro zh0 zh1 zh2 h0 h1 h2 ms ms' z h
  simp only [Server2.measStep] at h
  by_cases hg : Server2.Sinnov ms.mP h0 = 0 ∨ Server2.Sinnov ms.mP h1 = 0 ∨
      Server2.Sinnov ms.mP h2 = 0
  · rw [if_pos hg] at h
    exact absurd h (by simp)
  · rw [if_neg hg] at h
    simp only [Option.some.injEq] at h
    subst h
    refine ⟨_, rfl, _, ?_, rfl, rfl⟩
    rw [pick3_comp (Server2.Sinnov ms.mP)]

/-- C3 witness: a concrete measurement step over `ℚ` matching landmark `1`. -/
theorem c3_witness :
    Server2.measStep (1 : ℚ) 2 3 ⟨1, 0, 0⟩ ⟨0, 1, 0⟩ ⟨0, 0, 1⟩
        ⟨⟨0, 0, 0⟩, ident3 ℚ, ⟨0, 0, 0⟩, none, ⟨0, 0, 0⟩⟩ 2 =
      some ⟨⟨0, 0, 0⟩, ⟨1, 0, 0, 0, 1 / 40001, 0, 0, 0, 1⟩, ⟨0, 2, 0⟩, none, ⟨0, 0, 0⟩⟩ ∧
    (∃ j : Fin 3,
      j = Server2.chosenIdx (1 : ℚ) 2 3 ⟨1, 0, 0⟩ ⟨0, 1, 0⟩ ⟨0, 0, 1⟩
        (⟨⟨0, 0, 0⟩, ident3 ℚ, ⟨0, 0, 0⟩, none, ⟨0, 0, 0⟩⟩ : Server2.MeasState ℚ).mP 2 ∧
      ∃ K : Vec3 ℚ,
        K = vsmul (1 / Server2.Sinnov
            (⟨⟨0, 0, 0⟩, ident3 ℚ, ⟨0, 0, 0⟩, none, ⟨0, 0, 0⟩⟩ : Server2.MeasState ℚ).mP
            (pick3 j ⟨1, 0, 0⟩ ⟨0, 1, 0⟩ ⟨0, 0, 1⟩))
          (mulVec (⟨⟨0, 0, 0⟩, ident3 ℚ, ⟨0, 0, 0⟩, none,
            ⟨0, 0, 0⟩⟩ : Server2.MeasState ℚ).mP (pick3 j ⟨1, 0, 0⟩ ⟨0, 1, 0⟩ ⟨0, 0, 1⟩)) ∧
        (⟨⟨0, 0, 0⟩, ⟨1, 0, 0, 0, 1 / 40001, 0, 0, 0, 1⟩, ⟨0, 2, 0⟩, none,
          ⟨0, 0, 0⟩⟩ : Server2.MeasState ℚ).mP =
          msymm (mmul (msub (ident3 ℚ) (outer3 K (pick3 j ⟨1, 0, 0⟩ ⟨0, 1, 0⟩ ⟨0, 0, 1⟩)))
            (⟨⟨0, 0, 0⟩, ident3 ℚ, ⟨0, 0, 0⟩, none, ⟨0, 0, 0⟩⟩ : Server2.MeasState ℚ).mP) ∧
        (⟨⟨0, 0, 0⟩, ⟨1, 0, 0, 0, 1 / 40001, 0, 0, 0, 1⟩, ⟨0, 2, 0⟩, none,
          ⟨0, 0, 0⟩⟩ : Server2.MeasState ℚ).mst =
          vadd (⟨⟨0, 0, 0⟩, ident3 ℚ, ⟨0, 0, 0⟩, none, ⟨0, 0, 0⟩⟩ : Server2.MeasState ℚ).mst
            (vsmul (2 - pick3 j (1 : ℚ) 2 3) K)) := by
  have he : Server2.measStep (1 : ℚ) 2 3 ⟨1, 0, 0⟩ ⟨0, 1, 0⟩ ⟨0, 0, 1⟩
      ⟨⟨0, 0, 0⟩, ident3 ℚ, ⟨0, 0, 0⟩, none, ⟨0, 0, 0⟩⟩ 2 =
      some ⟨⟨0, 0, 0⟩, ⟨1, 0, 0, 0, 1 / 40001, 0, 0, 0, 1⟩, ⟨0, 2, 0⟩, none, ⟨0, 0, 0⟩⟩ := by
    norm_num [Server2.measStep, Server2.chosenIdx, argmin3, Server2.Sinnov,
      Server2.mahScore, quadForm, dot3, mulVec, ident3, Server2.Rmeas, pick3, vget, vset,
      vadd, vsmul, msymm, madd, msub, mmul, mtrans, msmul, outer3, Server2.fillFirstEmpty,
      Fin.ext_iff, Vec3.mk.injEq, Mat3.mk.injEq, Server2.MeasState.mk.injEq]
  exact ⟨he, c3_sequential_update 1 2 3 ⟨1, 0, 0⟩ ⟨0, 1, 0⟩ ⟨0, 0, 1⟩
    ⟨⟨0, 0, 0⟩, ident3 ℚ, ⟨0, 0, 0⟩, none, ⟨0, 0, 0⟩⟩
    ⟨⟨0, 0, 0⟩, ⟨1, 0, 0, 0, 1 / 40001, 0, 0, 0, 1⟩, ⟨0, 2, 0⟩, none, ⟨0, 0, 0⟩⟩ 2 he⟩

/-- C10: the predicted range `dist_hat_j`, by which the correction divides
when forming `H[j]`, is zero exactly when the predicted position coincides
with landmark `j`; the Jacobian row is literally that quotient. -/
theorem c10_zero_range (j : Fin 3) (x y : ℝ) :
    (Server2.zhat ⟨Real.cos, Real.sin, Real.sqrt, Real.pi⟩ j x y = 0 ↔
      x = Server2.Lx ℝ j ∧ y = Server2.Ly ℝ j) ∧
    Server2.Hrow ⟨Real.cos, Real.sin, Real.sqrt, Real.pi⟩ j x y =
      ⟨(x - Server2.Lx ℝ j) / Server2.zhat ⟨Real.cos, Real.sin, Real.sqrt, Real.pi⟩ j x y,
       (y - Server2.Ly ℝ j) / Server2.zhat ⟨Real.cos, Real.sin, Real.sqrt, Real.pi⟩ j x y,
       0⟩ := by
  refine ⟨?_, rfl⟩
  unfold Server2.zhat
  show Real.sqrt _ = 0 ↔ _
  rw [Real.sqrt_eq_zero']
  constructor
  · intro h
    have hx := sq_nonneg (x - Server2.Lx ℝ j)
    have hy := sq_nonneg (y - Server2.Ly ℝ j)
    have hx0 : (x - Server2.Lx ℝ j) ^ 2 = 0 := by linarith
    have hy0 : (y - Server2.Ly ℝ j) ^ 2 = 0 := by linarith
    exact ⟨sub_eq_zero.mp ((pow_eq_zero_iff two_ne_zero).mp hx0),
      sub_eq_zero.mp ((pow_eq_zero_iff two_ne_zero).mp hy0)⟩
  · rintro ⟨hx, hy⟩
    rw [hx, hy]
    simp

/-- C5 amended: within one measurement iteration of `Server.update`, the raw
value is stored into the matched slot only if that slot is empty; otherwise it
is held in `temp` and written into the first still-empty slot immediately,
during the same iteration — not after all three measurements — and `temp` is
never cleared, so the fill re-runs on every later iteration of the same call. -/
theorem c5_amended :
    ∀ (zh0 zh1 zh2 : F) (h0 h1 h2 : Vec3 F) (ms ms' : Server2.MeasState F) (z : F),
      Server2.measStep zh0 zh1 zh2 h0 h1 h2 ms z = some ms' →
      ((vget ms.mdist (Server2.chosenIdx zh0 zh1 zh2 h0 h1 h2 ms.mP z) = 0 →
          ms'.mtemp = ms.mtemp ∧
          ms'.mdist = (match ms.mtemp with
            | some w => Server2.fillFirstEmpty
                (vset ms.mdist (Server2.chosenIdx zh0 zh1 zh2 h0 h1 h2 ms.mP z) z) w
            | none => vset ms.mdist (Server2.chosenIdx zh0 zh1 zh2 h0 h1 h2 ms.mP z) z)) ∧
        (vget ms.mdist (Server2.chosenIdx zh0 zh1 zh2 h0 h1 h2 ms.mP z) ≠ 0 →
          ms'.mtemp = some z ∧ ms'.mdist = Server2.fillFirstEmpty ms.mdist z)) := by
  intro zh0 zh1 zh2 h0 h1 h2 ms ms' z h
  simp only [Server2.measStep] at h
  by_cases hg : Server2.Sinnov ms.mP h0 = 0 ∨ Server2.Sinnov ms.mP h1 = 0 ∨
      Server2.Sinnov ms.mP h2 = 0
  · rw [if_pos hg] at h
    exact absurd h (by simp)
  · rw [if_neg hg] at h
    simp only [Option.some.injEq] at h
    subst h
    constructor
    · intro hd
      constructor <;> simp only [if_pos hd]
    · intro hd
      constructor <;> simp only [if_neg hd]

/-- C5 amended witness: over `ℚ`, a measurement matched to an occupied slot
has its value written into the first empty slot within the same step. -/
theorem c5_amended_witness :
    Server2.measStep (7 : ℚ) 99 99 ⟨1, 0, 0⟩ ⟨0, 1, 0⟩ ⟨0, 0, 1⟩
        ⟨⟨0, 0, 0⟩, ident3 ℚ, ⟨5, 0, 0⟩, none, ⟨0, 0, 0⟩⟩ 7 =
      some ⟨⟨0, 0, 0⟩, ⟨1 / 40001, 0, 0, 0, 1, 0, 0, 0, 1⟩, ⟨5, 7, 0⟩, some 7,
        ⟨0, 0, 0⟩⟩ ∧
    vget (⟨5, 0, 0⟩ : Vec3 ℚ)
        (Server2.chosenIdx (7 : ℚ) 99 99 ⟨1, 0, 0⟩ ⟨0, 1, 0⟩ ⟨0, 0, 1⟩
          (⟨⟨0, 0, 0⟩, ident3 ℚ, ⟨5, 0, 0⟩, none, ⟨0, 0, 0⟩⟩ : Server2.MeasState ℚ).mP 7) ≠
      0 ∧
    (some 7 : Option ℚ) = some 7 ∧
    (⟨5, 7, 0⟩ : Vec3 ℚ) = Server2.fillFirstEmpty (⟨5, 0, 0⟩ : Vec3 ℚ) 7 := by
  have hd : vget (⟨5, 0, 0⟩ : Vec3 ℚ)
      (Server2.chosenIdx (7 : ℚ) 99 99 ⟨1, 0, 0⟩ ⟨0, 1, 0⟩ ⟨0, 0, 1⟩
        (⟨⟨0, 0, 0⟩, ident3 ℚ, ⟨5, 0, 0⟩, none, ⟨0, 0, 0⟩⟩ : Server2.MeasState ℚ).mP 7) ≠
      0 := by
    norm_num [Server2.chosenIdx, argmin3, Server2.Sinnov, Server2.mahScore, quadForm,
      dot3, mulVec, ident3, Server2.Rmeas, pick3, vget, Fin.ext_iff]
  have he : Server2.measStep (7 : ℚ) 99 99 ⟨1, 0, 0⟩ ⟨0, 1, 0⟩ ⟨0, 0, 1⟩
      ⟨⟨0, 0, 0⟩, ident3 ℚ, ⟨5, 0, 0⟩, none, ⟨0, 0, 0⟩⟩ 7 =
      some ⟨⟨0, 0, 0⟩, ⟨1 / 40001, 0, 0, 0, 1, 0, 0, 0, 1⟩, ⟨5, 7, 0⟩, some 7,
        ⟨0, 0, 0⟩⟩ := by
    norm_num [Server2.measStep, Server2.chosenIdx, argmin3, Server2.Sinnov,
      Server2.mahScore, quadForm, dot3, mulVec, ident3, Server2.Rmeas, pick3, vget, vset,
      vadd, vsmul, msymm, madd, msub, mmul, mtrans, msmul, outer3, Server2.fillFirstEmpty,
      Fin.ext_iff, Vec3.mk.injEq, Mat3.mk.injEq, Server2.MeasState.mk.injEq]
  refine ⟨he, hd, ?_, ?_⟩
  · exact ((c5_amended 7 99 99 ⟨1, 0, 0⟩ ⟨0, 1, 0⟩ ⟨0, 0, 1⟩
      ⟨⟨0, 0, 0⟩, ident3 ℚ, ⟨5, 0, 0⟩, none, ⟨0, 0, 0⟩⟩
      ⟨⟨0, 0, 0⟩, ⟨1 / 40001, 0, 0, 0, 1, 0, 0, 0, 1⟩, ⟨5, 7, 0⟩, some 7, ⟨0, 0, 0⟩⟩ 7
      he).2 hd).1
  · exact ((c5_amended 7 99 99 ⟨1, 0, 0⟩ ⟨0, 1, 0⟩ ⟨0, 0, 1⟩
      ⟨⟨0, 0, 0⟩, ident3 ℚ, ⟨5, 0, 0⟩, none, ⟨0, 0, 0⟩⟩
      ⟨⟨0, 0, 0⟩, ⟨1 / 40001, 0, 0, 0, 1, 0, 0, 0, 1⟩, ⟨5, 7, 0⟩, some 7, ⟨0, 0, 0⟩⟩ 7
      he).2 hd).2

/-- C6 amended: the only guard on the innovation covariance is implicit —
`np.linalg.inv` of the 1x1 matrix `S` fails exactly when `S == 0` (modelled by
`none`); a negative `S` is inverted like any other value and the correction
proceeds.  Concretely, with `P = -0.000025·I` at the origin the very first
`S_00` is exactly zero and the update call aborts. -/
theorem c6_amended :
    (∀ (zh0 zh1 zh2 : F) (h0 h1 h2 : Vec3 F) (ms : Server2.MeasState F) (z : F),
        Server2.measStep zh0 zh1 zh2 h0 h1 h2 ms z = none ↔
          Server2.Sinnov ms.mP h0 = 0 ∨ Server2.Sinnov ms.mP h1 = 0 ∨
            Server2.Sinnov ms.mP h2 = 0) ∧
    Server2.update ⟨Real.cos, Real.sin, Real.sqrt, Real.pi⟩
      ⟨0, 0, 0, ident3 ℝ, msmul (-(1 / 40000)) (ident3 ℝ)⟩ 1 2 3 = none := by
  constructor
  · exact fun zh0 zh1 zh2 h0 h1 h2 ms z => measStep_none_iff zh0 zh1 zh2 h0 h1 h2 ms z
  · apply update_none_left
    show Server2.Sinnov (msmul (-(1 / 40000)) (ident3 ℝ))
      (Server2.Hrow ⟨Real.cos, Real.sin, Real.sqrt, Real.pi⟩ 0 0 0) = 0
    rw [hrow0_origin]
    norm_num [Server2.Sinnov, quadForm, dot3, mulVec, msmul, ident3, Server2.Rmeas]

/-! ## Index-evaluation lemmas -/

lemma pick3_at0 {α : Type} (x0 x1 x2 : α) : pick3 (0 : Fin 3) x0 x1 x2 = x0 := rfl

lemma pick3_at1 {α : Type} (x0 x1 x2 : α) : pick3 (1 : Fin 3) x0 x1 x2 = x1 := rfl

lemma pick3_at2 {α : Type} (x0 x1 x2 : α) : pick3 (2 : Fin 3) x0 x1 x2 = x2 := rfl

lemma vget_at0 {α : Type} (u : Vec3 α) : vget u 0 = u.v0 := rfl

lemma vget_at1 {α : Type} (u : Vec3 α) : vget u 1 = u.v1 := rfl

lemma vget_at2 {α : Type} (u : Vec3 α) : vget u 2 = u.v2 := rfl

lemma vset_at0 {α : Type} (u : Vec3 α) (x : α) : vset u 0 x = ⟨x, u.v1, u.v2⟩ := rfl

lemma vset_at1 {α : Type} (u : Vec3 α) (x : α) : vset u 1 x = ⟨u.v0, x, u.v2⟩ := rfl

lemma vset_at2 {α : Type} (u : Vec3 α) (x : α) : vset u 2 x = ⟨u.v0, u.v1, x⟩ := rfl

/-! ## End-to-end scenario trace (origin pose, exact ranges) -/

lemma chooseA0 :
    Server2.chosenIdx (17 / 2) (Real.sqrt 89) (Real.sqrt (365 / 4))
      ⟨-(15 / 17), 8 / 17, 0⟩ (vsmul (1 / Real.sqrt 89) ⟨5, -8, 0⟩)
      (vsmul (1 / Real.sqrt (365 / 4)) ⟨7, 13 / 2, 0⟩)
      ⟨101 / 1000, 0, 0, 0, 1 / 10, 0, 0, 0, 251 / 2500⟩ (17 / 2) = 0 := by
  have hS1 : Server2.Sinnov (⟨101 / 1000, 0, 0, 0, 1 / 10, 0, 0, 0, 251 / 2500⟩ : Mat3 ℝ)
      (vsmul (1 / Real.sqrt 89) ⟨5, -8, 0⟩) = 357089 / 3560000 := by
    rw [Sinnov_vsmul, inv_sqrt89_sq]
    norm_num [quadForm, dot3, mulVec, Server2.Rmeas]
  have hS2 : Server2.Sinnov (⟨101 / 1000, 0, 0, 0, 1 / 10, 0, 0, 0, 251 / 2500⟩ : Mat3 ℝ)
      (vsmul (1 / Real.sqrt (365 / 4)) ⟨7, 13 / 2, 0⟩) = 293641 / 2920000 := by
    rw [Sinnov_vsmul, inv_sqrt365_sq]
    norm_num [quadForm, dot3, mulVec, Server2.Rmeas]
  unfold Server2.chosenIdx argmin3
  rw [hS1, hS2, sub_self]
  rw [if_pos]
  constructor
  · rw [mahScore_eq, mahScore_eq]
    norm_num
    positivity
  · rw [mahScore_eq, mahScore_eq]
    norm_num
    positivity

lemma stepA0 :
    Server2.measStep (17 / 2) (Real.sqrt 89) (Real.sqrt (365 / 4))
        ⟨-(15 / 17), 8 / 17, 0⟩ (vsmul (1 / Real.sqrt 89) ⟨5, -8, 0⟩)
        (vsmul (1 / Real.sqrt (365 / 4)) ⟨7, 13 / 2, 0⟩)
        ⟨⟨0, 0, 0⟩, ⟨101 / 1000, 0, 0, 0, 1 / 10, 0, 0, 0, 251 / 2500⟩, ⟨0, 0, 0⟩, none,
          ⟨0, 0, 0⟩⟩ (17 / 2) =
      some ⟨⟨0, 0, 0⟩,
        ⟨25885189 / 1165289000, 48480 / 1165289, 0,
         48480 / 1165289, 909289 / 11652890, 0, 0, 0, 251 / 2500⟩,
        ⟨17 / 2, 0, 0⟩, none, ⟨0, 0, 0⟩⟩ := by
  have hS0 : Server2.Sinnov (⟨101 / 1000, 0, 0, 0, 1 / 10, 0, 0, 0, 251 / 2500⟩ : Mat3 ℝ)
      ⟨-(15 / 17), 8 / 17, 0⟩ = 1165289 / 11560000 := by
    norm_num [Server2.Sinnov, quadForm, dot3, mulVec, Server2.Rmeas]
  have hS1 : Server2.Sinnov (⟨101 / 1000, 0, 0, 0, 1 / 10, 0, 0, 0, 251 / 2500⟩ : Mat3 ℝ)
      (vsmul (1 / Real.sqrt 89) ⟨5, -8, 0⟩) = 357089 / 3560000 := by
    rw [Sinnov_vsmul, inv_sqrt89_sq]
    norm_num [quadForm, dot3, mulVec, Server2.Rmeas]
  have hS2 : Server2.Sinnov (⟨101 / 1000, 0, 0, 0, 1 / 10, 0, 0, 0, 251 / 2500⟩ : Mat3 ℝ)
      (vsmul (1 / Real.sqrt (365 / 4)) ⟨7, 13 / 2, 0⟩) = 293641 / 2920000 := by
    rw [Sinnov_vsmul, inv_sqrt365_sq]
    norm_num [quadForm, dot3, mulVec, Server2.Rmeas]
  simp only [Server2.measStep]
  rw [if_neg (by rw [hS0, hS1, hS2]; norm_num), chooseA0]
  simp only [pick3_at0, vget_at0, vset_at0]
  rw [hS0]
  norm_num [Option.some.injEq, Server2.MeasState.mk.injEq, vadd, vsmul, mulVec, msymm,
    mmul, msub, madd, mtrans, msmul, outer3, ident3, Vec3.mk.injEq, Mat3.mk.injEq,
    Server2.mahScore, Server2.fillFirstEmpty]

lemma sq_pos_of_ne (v : F) (h : v ≠ 0) : 0 < v ^ 2 :=
  lt_of_le_of_ne (sq_nonneg v) (Ne.symm (pow_ne_zero 2 h))

lemma chooseA1 :
    Server2.chosenIdx (17 / 2) (Real.sqrt 89) (Real.sqrt (365 / 4))
      ⟨-(15 / 17), 8 / 17, 0⟩ (vsmul (1 / Real.sqrt 89) ⟨5, -8, 0⟩)
      (vsmul (1 / Real.sqrt (365 / 4)) ⟨7, 13 / 2, 0⟩)
      ⟨25885189 / 1165289000, 48480 / 1165289, 0,
       48480 / 1165289, 909289 / 11652890, 0, 0, 0, 251 / 2500⟩ (Real.sqrt 89) = 1 := by
  have hS0 : Server2.Sinnov
      (⟨25885189 / 1165289000, 48480 / 1165289, 0,
        48480 / 1165289, 909289 / 11652890, 0, 0, 0, 251 / 2500⟩ : Mat3 ℝ)
      ⟨-(15 / 17), 8 / 17, 0⟩ = 2330289 / 46611560000 := by
    norm_num [Server2.Sinnov, quadForm, dot3, mulVec, Server2.Rmeas]
  have hS2 : Server2.Sinnov
      (⟨25885189 / 1165289000, 48480 / 1165289, 0,
        48480 / 1165289, 909289 / 11652890, 0, 0, 0, 251 / 2500⟩ : Mat3 ℝ)
      (vsmul (1 / Real.sqrt (365 / 4)) ⟨7, 13 / 2, 0⟩) = 304782675249 / 3402643880000 := by
    rw [Sinnov_vsmul, inv_sqrt365_sq]
    norm_num [quadForm, dot3, mulVec, Server2.Rmeas]
  have hX0 : 0 < Server2.mahScore (2330289 / 46611560000 : ℝ) (Real.sqrt 89 - 17 / 2) := by
    rw [mahScore_eq]
    exact div_pos (sq_pos_of_ne _ (sub_ne_zero.mpr sqrt89_ne_half17)) (by norm_num)
  have hX2 : 0 ≤ Server2.mahScore (304782675249 / 3402643880000 : ℝ)
      (Real.sqrt 89 - Real.sqrt (365 / 4)) := by
    rw [mahScore_eq]
    positivity
  unfold Server2.chosenIdx argmin3
  rw [hS0, hS2, sub_self,
    show Server2.mahScore (Server2.Sinnov
      (⟨25885189 / 1165289000, 48480 / 1165289, 0,
        48480 / 1165289, 909289 / 11652890, 0, 0, 0, 251 / 2500⟩ : Mat3 ℝ)
      (vsmul (1 / Real.sqrt 89) ⟨5, -8, 0⟩)) (0 : ℝ) = 0 by simp [Server2.mahScore]]
  rw [if_neg, if_pos hX2]
  rintro ⟨hc, _⟩
  linarith

lemma stepA1 :
    Server2.measStep (17 / 2) (Real.sqrt 89) (Real.sqrt (365 / 4))
        ⟨-(15 / 17), 8 / 17, 0⟩ (vsmul (1 / Real.sqrt 89) ⟨5, -8, 0⟩)
        (vsmul (1 / Real.sqrt (365 / 4)) ⟨7, 13 / 2, 0⟩)
        ⟨⟨0, 0, 0⟩,
         ⟨25885189 / 1165289000, 48480 / 1165289, 0,
          48480 / 1165289, 909289 / 11652890, 0, 0, 0, 251 / 2500⟩,
         ⟨17 / 2, 0, 0⟩, none, ⟨0, 0, 0⟩⟩ (Real.sqrt 89) =
      some ⟨⟨0, 0, 0⟩,
        ⟨9776165821 / 103630883721000, 8984960 / 103630883721, 0,
         8984960 / 103630883721, 110115721 / 1036308837210, 0, 0, 0, 251 / 2500⟩,
        ⟨17 / 2, Real.sqrt 89, 0⟩, none, ⟨0, 0, 0⟩⟩ := by
  have hS0 : Server2.Sinnov
      (⟨25885189 / 1165289000, 48480 / 1165289, 0,
        48480 / 1165289, 909289 / 11652890, 0, 0, 0, 251 / 2500⟩ : Mat3 ℝ)
      ⟨-(15 / 17), 8 / 17, 0⟩ = 2330289 / 46611560000 := by
    norm_num [Server2.Sinnov, quadForm, dot3, mulVec, Server2.Rmeas]
  have hS1 : Server2.Sinnov
      (⟨25885189 / 1165289000, 48480 / 1165289, 0,
        48480 / 1165289, 909289 / 11652890, 0, 0, 0, 251 / 2500⟩ : Mat3 ℝ)
      (vsmul (1 / Real.sqrt 89) ⟨5, -8, 0⟩) = 103630883721 / 4148428840000 := by
    rw [Sinnov_vsmul, inv_sqrt89_sq]
    norm_num [quadForm, dot3, mulVec, Server2.Rmeas]
  have hS2 : Server2.Sinnov
      (⟨25885189 / 1165289000, 48480 / 1165289, 0,
        48480 / 1165289, 909289 / 11652890, 0, 0, 0, 251 / 2500⟩ : Mat3 ℝ)
      (vsmul (1 / Real.sqrt (365 / 4)) ⟨7, 13 / 2, 0⟩) = 304782675249 / 3402643880000 := by
    rw [Sinnov_vsmul, inv_sqrt365_sq]
    norm_num [quadForm, dot3, mulVec, Server2.Rmeas]
  simp only [Server2.measStep]
  rw [if_neg (by rw [hS0, hS1, hS2]; norm_num), chooseA1]
  simp only [pick3_at1, vget_at1, vset_at1]
  rw [hS1]
  simp only [Option.some.injEq, Server2.MeasState.mk.injEq]
  refine ⟨?_, ?_, ?_, ?_, ?_⟩
  · rw [sub_self]
    norm_num [vadd, vsmul, Vec3.mk.injEq]
  · rw [outer_scaled, inv_sqrt89_sq]
    norm_num [msymm, mmul, msub, madd, mtrans, msmul, outer3, mulVec, ident3, Mat3.mk.injEq]
  · norm_num [Vec3.mk.injEq]
  · norm_num
  · rw [sub_self]
    norm_num [Server2.mahScore, Vec3.mk.injEq]

lemma chooseA2 :
    Server2.chosenIdx (17 / 2) (Real.sqrt 89) (Real.sqrt (365 / 4))
      ⟨-(15 / 17), 8 / 17, 0⟩ (vsmul (1 / Real.sqrt 89) ⟨5, -8, 0⟩)
      (vsmul (1 / Real.sqrt (365 / 4)) ⟨7, 13 / 2, 0⟩)
      ⟨9776165821 / 103630883721000, 8984960 / 103630883721, 0,
       8984960 / 103630883721, 110115721 / 1036308837210, 0, 0, 0, 251 / 2500⟩
      (Real.sqrt (365 / 4)) = 2 := by
  have hS0 : Server2.Sinnov
      (⟨9776165821 / 103630883721000, 8984960 / 103630883721, 0,
        8984960 / 103630883721, 110115721 / 1036308837210, 0, 0, 0, 251 / 2500⟩ : Mat3 ℝ)
      ⟨-(15 / 17), 8 / 17, 0⟩ = 207158568721 / 4145235348840000 := by
    norm_num [Server2.Sinnov, quadForm, dot3, mulVec, Server2.Rmeas]
  have hS1 : Server2.Sinnov
      (⟨9776165821 / 103630883721000, 8984960 / 103630883721, 0,
        8984960 / 103630883721, 110115721 / 1036308837210, 0, 0, 0, 251 / 2500⟩ : Mat3 ℝ)
      (vsmul (1 / Real.sqrt 89) ⟨5, -8, 0⟩) = 207158056721 / 4145235348840000 := by
    rw [Sinnov_vsmul, inv_sqrt89_sq]
    norm_num [quadForm, dot3, mulVec, Server2.Rmeas]
  have hX0 : 0 < Server2.mahScore (207158568721 / 4145235348840000 : ℝ)
      (Real.sqrt (365 / 4) - 17 / 2) := by
    rw [mahScore_eq]
    exact div_pos (sq_pos_of_ne _ (sub_ne_zero.mpr sqrt365_ne_half17)) (by norm_num)
  have hX1 : 0 < Server2.mahScore (207158056721 / 4145235348840000 : ℝ)
      (Real.sqrt (365 / 4) - Real.sqrt 89) := by
    rw [mahScore_eq]
    exact div_pos (sq_pos_of_ne _ (sub_ne_zero.mpr sqrt365_ne_sqrt89)) (by norm_num)
  unfold Server2.chosenIdx argmin3
  rw [hS0, hS1, sub_self,
    show Server2.mahScore (Server2.Sinnov
      (⟨9776165821 / 103630883721000, 8984960 / 103630883721, 0,
        8984960 / 103630883721, 110115721 / 1036308837210, 0, 0, 0, 251 / 2500⟩ : Mat3 ℝ)
      (vsmul (1 / Real.sqrt (365 / 4)) ⟨7, 13 / 2, 0⟩)) (0 : ℝ) = 0 by
        simp [Server2.mahScore]]
  rw [if_neg, if_neg]
  · intro hc
    linarith
  · rintro ⟨_, hc⟩
    linarith

lemma stepA2 :
    Server2.measStep (17 / 2) (Real.sqrt 89) (Real.sqrt (365 / 4))
        ⟨-(15 / 17), 8 / 17, 0⟩ (vsmul (1 / Real.sqrt 89) ⟨5, -8, 0⟩)
        (vsmul (1 / Real.sqrt (365 / 4)) ⟨7, 13 / 2, 0⟩)
        ⟨⟨0, 0, 0⟩,
         ⟨9776165821 / 103630883721000, 8984960 / 103630883721, 0,
          8984960 / 103630883721, 110115721 / 1036308837210, 0, 0, 0, 251 / 2500⟩,
         ⟨17 / 2, Real.sqrt 89, 0⟩, none, ⟨0, 0, 0⟩⟩ (Real.sqrt (365 / 4)) =
      some ⟨⟨0, 0, 0⟩,
        ⟨96807773103 / 5813266501651000, 126208792 / 29066332508255, 0,
         126208792 / 29066332508255, 12111830961 / 639459315181610, 0, 0, 0, 251 / 2500⟩,
        ⟨17 / 2, Real.sqrt 89, Real.sqrt (365 / 4)⟩, none, ⟨0, 0, 0⟩⟩ := by
  have hS0 : Server2.Sinnov
      (⟨9776165821 / 103630883721000, 8984960 / 103630883721, 0,
        8984960 / 103630883721, 110115721 / 1036308837210, 0, 0, 0, 251 / 2500⟩ : Mat3 ℝ)
      ⟨-(15 / 17), 8 / 17, 0⟩ = 207158568721 / 4145235348840000 := by
    norm_num [Server2.Sinnov, quadForm, dot3, mulVec, Server2.Rmeas]
  have hS1 : Server2.Sinnov
      (⟨9776165821 / 103630883721000, 8984960 / 103630883721, 0,
        8984960 / 103630883721, 110115721 / 1036308837210, 0, 0, 0, 251 / 2500⟩ : Mat3 ℝ)
      (vsmul (1 / Real.sqrt 89) ⟨5, -8, 0⟩) = 207158056721 / 4145235348840000 := by
    rw [Sinnov_vsmul, inv_sqrt89_sq]
    norm_num [quadForm, dot3, mulVec, Server2.Rmeas]
  have hS2 : Server2.Sinnov
      (⟨9776165821 / 103630883721000, 8984960 / 103630883721, 0,
        8984960 / 103630883721, 110115721 / 1036308837210, 0, 0, 0, 251 / 2500⟩ : Mat3 ℝ)
      (vsmul (1 / Real.sqrt (365 / 4)) ⟨7, 13 / 2, 0⟩) =
      63945931518161 / 302602180465320000 := by
    rw [Sinnov_vsmul, inv_sqrt365_sq]
    norm_num [quadForm, dot3, mulVec, Server2.Rmeas]
  simp only [Server2.measStep]
  rw [if_neg (by rw [hS0, hS1, hS2]; norm_num), chooseA2]
  simp only [pick3_at2, vget_at2, vset_at2]
  rw [hS2]
  simp only [Option.some.injEq, Server2.MeasState.mk.injEq]
  refine ⟨?_, ?_, ?_, ?_, ?_⟩
  · rw [sub_self]
    norm_num [vadd, vsmul, Vec3.mk.injEq]
  · rw [outer_scaled, inv_sqrt365_sq]
    norm_num [msymm, mmul, msub, madd, mtrans, msmul, outer3, mulVec, ident3, Mat3.mk.injEq]
  · norm_num [Vec3.mk.injEq]
  · norm_num
  · rw [sub_self]
    norm_num [Server2.mahScore, Vec3.mk.injEq]

/-- C8: end-to-end scenario.  From the initial server state (origin pose,
`P = 0.1·I`), one odometry tick with `ωL = ωR = 0` gives the predicted state
`(0,0,0)` with `P = diag(0.101, 0.1, 0.1004)`; feeding the exact true
distances to the three landmarks (`17/2`, `√89`, `√(365/4)`, as the stated
`zhat` equations confirm) leaves the corrected state at `(0,0,0)` and strictly
shrinks the covariance trace. -/
theorem c8_end_to_end :
    Server2.stepCalculation ⟨Real.cos, Real.sin, Real.sqrt, Real.pi⟩ (Server2.initState ℝ)
        0 0 (1 / 10) =
      ⟨0, 0, 0, ident3 ℝ, ⟨101 / 1000, 0, 0, 0, 1 / 10, 0, 0, 0, 251 / 2500⟩⟩ ∧
    Server2.zhat ⟨Real.cos, Real.sin, Real.sqrt, Real.pi⟩ 0 0 0 = 17 / 2 ∧
    Server2.zhat ⟨Real.cos, Real.sin, Real.sqrt, Real.pi⟩ 1 0 0 = Real.sqrt 89 ∧
    Server2.zhat ⟨Real.cos, Real.sin, Real.sqrt, Real.pi⟩ 2 0 0 = Real.sqrt (365 / 4) ∧
    ∃ r : Server2.EKF ℝ × Server2.MeasState ℝ,
      Server2.update ⟨Real.cos, Real.sin, Real.sqrt, Real.pi⟩
          ⟨0, 0, 0, ident3 ℝ, ⟨101 / 1000, 0, 0, 0, 1 / 10, 0, 0, 0, 251 / 2500⟩⟩
          (17 / 2) (Real.sqrt 89) (Real.sqrt (365 / 4)) = some r ∧
      r.1.x = 0 ∧ r.1.y = 0 ∧ r.1.yaw = 0 ∧
      trace3 r.1.P <
        trace3 (⟨101 / 1000, 0, 0, 0, 1 / 10, 0, 0, 0, 251 / 2500⟩ : Mat3 ℝ) := by
  refine ⟨?_, zhat0_origin, zhat1_origin, zhat2_origin, ?_⟩
  · norm_num [Server2.stepCalculation, Server2.rotHead, Server2.transHead,
      Server2.motionRot, Server2.motionTrans, Server2.Radius, Server2.Dhalf,
      Server2.initState, ident3, msmul, msymm, madd, mmul, mtrans, Server2.Mnoise,
      Server2.EKF.mk.injEq, Mat3.mk.injEq, Real.cos_zero, Real.sin_zero]
  · simp only [Server2.update]
    rw [zhat0_origin, zhat1_origin, zhat2_origin, hrow0_origin, hrow1_origin, hrow2_origin]
    rw [stepA0]
    simp only [Option.some_bind]
    rw [stepA1]
    simp only [Option.some_bind]
    rw [stepA2]
    simp only [Option.some_bind]
    refine ⟨_, rfl, rfl, rfl, rfl, ?_⟩
    norm_num [trace3]

/-! ## Duplicate-match scenario trace (origin pose, `P = 0.1 I`,
measurements `(17/2, 17/2, √89)`) -/

lemma chooseB0 :
    Server2.chosenIdx (17 / 2) (Real.sqrt 89) (Real.sqrt (365 / 4))
      ⟨-(15 / 17), 8 / 17, 0⟩ (vsmul (1 / Real.sqrt 89) ⟨5, -8, 0⟩)
      (vsmul (1 / Real.sqrt (365 / 4)) ⟨7, 13 / 2, 0⟩)
      ⟨1 / 10, 0, 0, 0, 1 / 10, 0, 0, 0, 1 / 10⟩ (17 / 2) = 0 := by
  have hS1 : Server2.Sinnov (⟨1 / 10, 0, 0, 0, 1 / 10, 0, 0, 0, 1 / 10⟩ : Mat3 ℝ)
      (vsmul (1 / Real.sqrt 89) ⟨5, -8, 0⟩) = 4001 / 40000 := by
    rw [Sinnov_vsmul, inv_sqrt89_sq]
    norm_num [quadForm, dot3, mulVec, Server2.Rmeas]
  have hS2 : Server2.Sinnov (⟨1 / 10, 0, 0, 0, 1 / 10, 0, 0, 0, 1 / 10⟩ : Mat3 ℝ)
      (vsmul (1 / Real.sqrt (365 / 4)) ⟨7, 13 / 2, 0⟩) = 4001 / 40000 := by
    rw [Sinnov_vsmul, inv_sqrt365_sq]
    norm_num [quadForm, dot3, mulVec, Server2.Rmeas]
  unfold Server2.chosenIdx argmin3
  rw [hS1, hS2, sub_self]
  rw [if_pos]
  constructor
  · rw [mahScore_eq, mahScore_eq]
    norm_num
    positivity
  · rw [mahScore_eq, mahScore_eq]
    norm_num
    positivity

lemma stepB0 :
    Server2.measStep (17 / 2) (Real.sqrt 89) (Real.sqrt (365 / 4))
        ⟨-(15 / 17), 8 / 17, 0⟩ (vsmul (1 / Real.sqrt 89) ⟨5, -8, 0⟩)
        (vsmul (1 / Real.sqrt (365 / 4)) ⟨7, 13 / 2, 0⟩)
        ⟨⟨0, 0, 0⟩, ⟨1 / 10, 0, 0, 0, 1 / 10, 0, 0, 0, 1 / 10⟩, ⟨0, 0, 0⟩, none,
          ⟨0, 0, 0⟩⟩ (17 / 2) =
      some ⟨⟨0, 0, 0⟩,
        ⟨256289 / 11562890, 48000 / 1156289, 0,
         48000 / 1156289, 900289 / 11562890, 0, 0, 0, 1 / 10⟩,
        ⟨17 / 2, 0, 0⟩, none, ⟨0, 0, 0⟩⟩ := by
  have hS0 : Server2.Sinnov (⟨1 / 10, 0, 0, 0, 1 / 10, 0, 0, 0, 1 / 10⟩ : Mat3 ℝ)
      ⟨-(15 / 17), 8 / 17, 0⟩ = 4001 / 40000 := by
    norm_num [Server2.Sinnov, quadForm, dot3, mulVec, Server2.Rmeas]
  have hS1 : Server2.Sinnov (⟨1 / 10, 0, 0, 0, 1 / 10, 0, 0, 0, 1 / 10⟩ : Mat3 ℝ)
      (vsmul (1 / Real.sqrt 89) ⟨5, -8, 0⟩) = 4001 / 40000 := by
    rw [Sinnov_vsmul, inv_sqrt89_sq]
    norm_num [quadForm, dot3, mulVec, Server2.Rmeas]
  have hS2 : Server2.Sinnov (⟨1 / 10, 0, 0, 0, 1 / 10, 0, 0, 0, 1 / 10⟩ : Mat3 ℝ)
      (vsmul (1 / Real.sqrt (365 / 4)) ⟨7, 13 / 2, 0⟩) = 4001 / 40000 := by
    rw [Sinnov_vsmul, inv_sqrt365_sq]
    norm_num [quadForm, dot3, mulVec, Server2.Rmeas]
  simp only [Server2.measStep]
  rw [if_neg (by rw [hS0, hS1, hS2]; norm_num), chooseB0]
  simp only [pick3_at0, vget_at0, vset_at0]
  rw [hS0]
  norm_num [Option.some.injEq, Server2.MeasState.mk.injEq, vadd, vsmul, mulVec, msymm,
    mmul, msub, madd, mtrans, msmul, outer3, ident3, Vec3.mk.injEq, Mat3.mk.injEq,
    Server2.mahScore, Server2.fillFirstEmpty]

lemma chooseB1 :
    Server2.chosenIdx (17 / 2) (Real.sqrt 89) (Real.sqrt (365 / 4))
      ⟨-(15 / 17), 8 / 17, 0⟩ (vsmul (1 / Real.sqrt 89) ⟨5, -8, 0⟩)
      (vsmul (1 / Real.sqrt (365 / 4)) ⟨7, 13 / 2, 0⟩)
      ⟨256289 / 11562890, 48000 / 1156289, 0,
       48000 / 1156289, 900289 / 11562890, 0, 0, 0, 1 / 10⟩ (17 / 2) = 0 := by
  have hS1 : Server2.Sinnov
      (⟨256289 / 11562890, 48000 / 1156289, 0,
        48000 / 1156289, 900289 / 11562890, 0, 0, 0, 1 / 10⟩ : Mat3 ℝ)
      (vsmul (1 / Real.sqrt 89) ⟨5, -8, 0⟩) = 102605793721 / 4116388840000 := by
    rw [Sinnov_vsmul, inv_sqrt89_sq]
    norm_num [quadForm, dot3, mulVec, Server2.Rmeas]
  have hS2 : Server2.Sinnov
      (⟨256289 / 11562890, 48000 / 1156289, 0,
        48000 / 1156289, 900289 / 11562890, 0, 0, 0, 1 / 10⟩ : Mat3 ℝ)
      (vsmul (1 / Real.sqrt (365 / 4)) ⟨7, 13 / 2, 0⟩) =
      301765597097 / 3376363880000 := by
    rw [Sinnov_vsmul, inv_sqrt365_sq]
    norm_num [quadForm, dot3, mulVec, Server2.Rmeas]
  unfold Server2.chosenIdx argmin3
  rw [hS1, hS2, sub_self]
  rw [if_pos]
  constructor
  · rw [mahScore_eq, mahScore_eq]
    norm_num
    positivity
  · rw [mahScore_eq, mahScore_eq]
    norm_num
    positivity

lemma stepB1 :
    Server2.measStep (17 / 2) (Real.sqrt 89) (Real.sqrt (365 / 4))
        ⟨-(15 / 17), 8 / 17, 0⟩ (vsmul (1 / Real.sqrt 89) ⟨5, -8, 0⟩)
        (vsmul (1 / Real.sqrt (365 / 4)) ⟨7, 13 / 2, 0⟩)
        ⟨⟨0, 0, 0⟩,
         ⟨256289 / 11562890, 48000 / 1156289, 0,
          48000 / 1156289, 900289 / 11562890, 0, 0, 0, 1 / 10⟩,
         ⟨17 / 2, 0, 0⟩, none, ⟨0, 0, 0⟩⟩ (17 / 2) =
      some ⟨⟨0, 0, 0⟩,
        ⟨56921 / 2569210, 32000 / 770763, 0,
         32000 / 770763, 1800289 / 23122890, 0, 0, 0, 1 / 10⟩,
        ⟨17 / 2, 17 / 2, 0⟩, some (17 / 2), ⟨0, 0, 0⟩⟩ := by
  have hS0 : Server2.Sinnov
      (⟨256289 / 11562890, 48000 / 1156289, 0,
        48000 / 1156289, 900289 / 11562890, 0, 0, 0, 1 / 10⟩ : Mat3 ℝ)
      ⟨-(15 / 17), 8 / 17, 0⟩ = 8001 / 160040000 := by
    norm_num [Server2.Sinnov, quadForm, dot3, mulVec, Server2.Rmeas]
  have hS1 : Server2.Sinnov
      (⟨256289 / 11562890, 48000 / 1156289, 0,
        48000 / 1156289, 900289 / 11562890, 0, 0, 0, 1 / 10⟩ : Mat3 ℝ)
      (vsmul (1 / Real.sqrt 89) ⟨5, -8, 0⟩) = 102605793721 / 4116388840000 := by
    rw [Sinnov_vsmul, inv_sqrt89_sq]
    norm_num [quadForm, dot3, mulVec, Server2.Rmeas]
  have hS2 : Server2.Sinnov
      (⟨256289 / 11562890, 48000 / 1156289, 0,
        48000 / 1156289, 900289 / 11562890, 0, 0, 0, 1 / 10⟩ : Mat3 ℝ)
      (vsmul (1 / Real.sqrt (365 / 4)) ⟨7, 13 / 2, 0⟩) =
      301765597097 / 3376363880000 := by
    rw [Sinnov_vsmul, inv_sqrt365_sq]
    norm_num [quadForm, dot3, mulVec, Server2.Rmeas]
  simp only [Server2.measStep]
  rw [if_neg (by rw [hS0, hS1, hS2]; norm_num), chooseB1]
  simp only [pick3_at0, vget_at0, vset_at0]
  rw [hS0]
  norm_num [Option.some.injEq, Server2.MeasState.mk.injEq, vadd, vsmul, mulVec, msymm,
    mmul, msub, madd, mtrans, msmul, outer3, ident3, Vec3.mk.injEq, Mat3.mk.injEq,
    Server2.mahScore, Server2.fillFirstEmpty]

lemma chooseB2 :
    Server2.chosenIdx (17 / 2) (Real.sqrt 89) (Real.sqrt (365 / 4))
      ⟨-(15 / 17), 8 / 17, 0⟩ (vsmul (1 / Real.sqrt 89) ⟨5, -8, 0⟩)
      (vsmul (1 / Real.sqrt (365 / 4)) ⟨7, 13 / 2, 0⟩)
      ⟨56921 / 2569210, 32000 / 770763, 0,
       32000 / 770763, 1800289 / 23122890, 0, 0, 0, 1 / 10⟩ (Real.sqrt 89) = 1 := by
  have hS0 : Server2.Sinnov
      (⟨56921 / 2569210, 32000 / 770763, 0,
        32000 / 770763, 1800289 / 23122890, 0, 0, 0, 1 / 10⟩ : Mat3 ℝ)
      ⟨-(15 / 17), 8 / 17, 0⟩ = 12001 / 320040000 := by
    norm_num [Server2.Sinnov, quadForm, dot3, mulVec, Server2.Rmeas]
  have hS2 : Server2.Sinnov
      (⟨56921 / 2569210, 32000 / 770763, 0,
        32000 / 770763, 1800289 / 23122890, 0, 0, 0, 1 / 10⟩ : Mat3 ℝ)
      (vsmul (1 / Real.sqrt (365 / 4)) ⟨7, 13 / 2, 0⟩) =
      603446785097 / 6751883880000 := by
    rw [Sinnov_vsmul, inv_sqrt365_sq]
    norm_num [quadForm, dot3, mulVec, Server2.Rmeas]
  have hX0 : 0 < Server2.mahScore (12001 / 320040000 : ℝ) (Real.sqrt 89 - 17 / 2) := by
    rw [mahScore_eq]
    exact div_pos (sq_pos_of_ne _ (sub_ne_zero.mpr sqrt89_ne_half17)) (by norm_num)
  have hX2 : 0 ≤ Server2.mahScore (603446785097 / 6751883880000 : ℝ)
      (Real.sqrt 89 - Real.sqrt (365 / 4)) := by
    rw [mahScore_eq]
    positivity
  unfold Server2.chosenIdx argmin3
  rw [hS0, hS2, sub_self,
    show Server2.mahScore (Server2.Sinnov
      (⟨56921 / 2569210, 32000 / 770763, 0,
        32000 / 770763, 1800289 / 23122890, 0, 0, 0, 1 / 10⟩ : Mat3 ℝ)
      (vsmul (1 / Real.sqrt 89) ⟨5, -8, 0⟩)) (0 : ℝ) = 0 by simp [Server2.mahScore]]
  rw [if_neg, if_pos hX2]
  rintro ⟨hc, _⟩
  linarith

lemma stepB2 :
    Server2.measStep (17 / 2) (Real.sqrt 89) (Real.sqrt (365 / 4))
        ⟨-(15 / 17), 8 / 17, 0⟩ (vsmul (1 / Real.sqrt 89) ⟨5, -8, 0⟩)
        (vsmul (1 / Real.sqrt (365 / 4)) ⟨7, 13 / 2, 0⟩)
        ⟨⟨0, 0, 0⟩,
         ⟨56921 / 2569210, 32000 / 770763, 0,
          32000 / 770763, 1800289 / 23122890, 0, 0, 0, 1 / 10⟩,
         ⟨17 / 2, 17 / 2, 0⟩, some (17 / 2), ⟨0, 0, 0⟩⟩ (Real.sqrt 89) =
      some ⟨⟨0, 0, 0⟩,
        ⟨119577721 / 2051086777210, 13168000 / 205108677721, 0,
         13168000 / 205108677721, 189125721 / 2051086777210, 0, 0, 0, 1 / 10⟩,
        ⟨17 / 2, 17 / 2, Real.sqrt 89⟩, some (Real.sqrt 89), ⟨0, 0, 0⟩⟩ := by
  have hS0 : Server2.Sinnov
      (⟨56921 / 2569210, 32000 / 770763, 0,
        32000 / 770763, 1800289 / 23122890, 0, 0, 0, 1 / 10⟩ : Mat3 ℝ)
      ⟨-(15 / 17), 8 / 17, 0⟩ = 12001 / 320040000 := by
    norm_num [Server2.Sinnov, quadForm, dot3, mulVec, Server2.Rmeas]
  have hS1 : Server2.Sinnov
      (⟨56921 / 2569210, 32000 / 770763, 0,
        32000 / 770763, 1800289 / 23122890, 0, 0, 0, 1 / 10⟩ : Mat3 ℝ)
      (vsmul (1 / Real.sqrt 89) ⟨5, -8, 0⟩) = 205108677721 / 8231748840000 := by
    rw [Sinnov_vsmul, inv_sqrt89_sq]
    norm_num [quadForm, dot3, mulVec, Server2.Rmeas]
  have hS2 : Server2.Sinnov
      (⟨56921 / 2569210, 32000 / 770763, 0,
        32000 / 770763, 1800289 / 23122890, 0, 0, 0, 1 / 10⟩ : Mat3 ℝ)
      (vsmul (1 / Real.sqrt (365 / 4)) ⟨7, 13 / 2, 0⟩) =
      603446785097 / 6751883880000 := by
    rw [Sinnov_vsmul, inv_sqrt365_sq]
    norm_num [quadForm, dot3, mulVec, Server2.Rmeas]
  simp only [Server2.measStep]
  rw [if_neg (by rw [hS0, hS1, hS2]; norm_num), chooseB2]
  simp only [pick3_at1, vget_at1, vset_at1]
  rw [hS1]
  simp only [Option.some.injEq, Server2.MeasState.mk.injEq]
  refine ⟨?_, ?_, ?_, ?_, ?_⟩
  · rw [sub_self]
    norm_num [vadd, vsmul, Vec3.mk.injEq]
  · rw [outer_scaled, inv_sqrt89_sq]
    norm_num [msymm, mmul, msub, madd, mtrans, msmul, outer3, mulVec, ident3, Mat3.mk.injEq]
  · norm_num [Server2.fillFirstEmpty, Vec3.mk.injEq]
  · norm_num
  · rw [sub_self]
    norm_num [Server2.mahScore, Vec3.mk.injEq]

/-- C5 counterexample: starting from the initial server state, measurements
`(17/2, 17/2, √89)` match landmarks `(0, 0, 1)` — a duplicate on landmark 0.
The code writes the held duplicate immediately into slot 1, so slot 1 ends as
`17/2` and the diagnostic column is `(17/2, 17/2, √89)`; the behaviour the
spec describes (hold until all three are processed) would instead put the
third measurement `√89` into slot 1 and the held `17/2` into slot 2, giving
`(17/2, √89, 17/2)`.  The two disagree. -/
theorem c5_counterexample :
    (Server2.update ⟨Real.cos, Real.sin, Real.sqrt, Real.pi⟩ (Server2.initState ℝ)
        (17 / 2) (17 / 2) (Real.sqrt 89)).map (fun r => r.2.mdist) =
      some ⟨17 / 2, 17 / 2, Real.sqrt 89⟩ ∧
    Server2.chosenSeq ⟨Real.cos, Real.sin, Real.sqrt, Real.pi⟩ (Server2.initState ℝ)
        (17 / 2) (17 / 2) (Real.sqrt 89) = some (0, 0, 1) ∧
    specDistFill 0 0 1 (17 / 2) (17 / 2) (Real.sqrt 89) =
      ⟨17 / 2, Real.sqrt 89, 17 / 2⟩ ∧
    (⟨17 / 2, 17 / 2, Real.sqrt 89⟩ : Vec3 ℝ) ≠ ⟨17 / 2, Real.sqrt 89, 17 / 2⟩ := by
  have hinit : Server2.initState ℝ =
      ⟨0, 0, 0, ident3 ℝ, ⟨1 / 10, 0, 0, 0, 1 / 10, 0, 0, 0, 1 / 10⟩⟩ := by
    norm_num [Server2.initState, msmul, ident3, Server2.EKF.mk.injEq, Mat3.mk.injEq]
  refine ⟨?_, ?_, ?_, ?_⟩
  · rw [hinit]
    simp only [Server2.update]
    rw [zhat0_origin, zhat1_origin, zhat2_origin, hrow0_origin, hrow1_origin, hrow2_origin]
    rw [stepB0]
    simp only [Option.some_bind]
    rw [stepB1]
    simp only [Option.some_bind]
    rw [stepB2]
    simp only [Option.some_bind]
    rfl
  · rw [hinit]
    simp only [Server2.chosenSeq]
    rw [zhat0_origin, zhat1_origin, zhat2_origin, hrow0_origin, hrow1_origin, hrow2_origin]
    rw [stepB0]
    simp only [Option.some_bind]
    rw [stepB1]
    simp only [Option.some_bind]
    rw [chooseB0, chooseB1, chooseB2]
  · simp only [specDistFill, vget_at0, vget_at1, vset_at0, vset_at1]
    norm_num [Server2.fillFirstEmpty, ne_of_gt sqrt89_pos, Vec3.mk.injEq]
  · intro h
    rw [Vec3.mk.injEq] at h
    exact sqrt89_ne_half17 h.2.2

/-- C2: data association processes the three measurements in arrival order
(`update` is the sequential composition of three `measStep`s, each consuming
the state left by the previous one); each measurement is matched to the
landmark whose Mahalanobis score is minimal among all three landmarks
(first index on ties, like `np.argmin`), computed from the covariance current
at that point; no landmark is removed, and the same landmark can be chosen
for two measurements, as the concrete run shows. -/
theorem c2_data_association :
    (∀ (zh0 zh1 zh2 z : F) (h0 h1 h2 : Vec3 F) (P : Mat3 F) (j : Fin 3),
        pick3 (Server2.chosenIdx zh0 zh1 zh2 h0 h1 h2 P z)
            (Server2.mahScore (Server2.Sinnov P h0) (z - zh0))
            (Server2.mahScore (Server2.Sinnov P h1) (z - zh1))
            (Server2.mahScore (Server2.Sinnov P h2) (z - zh2)) ≤
          pick3 j (Server2.mahScore (Server2.Sinnov P h0) (z - zh0))
            (Server2.mahScore (Server2.Sinnov P h1) (z - zh1))
            (Server2.mahScore (Server2.Sinnov P h2) (z - zh2))) ∧
    (∀ (c : Ctx F) (s : Server2.EKF F) (d0 d1 d2 : F),
        Server2.update c s d0 d1 d2 = none ∨
          ∃ m1 m2 m3 : Server2.MeasState F,
            Server2.measStep (Server2.zhat c 0 s.x s.y) (Server2.zhat c 1 s.x s.y)
              (Server2.zhat c 2 s.x s.y) (Server2.Hrow c 0 s.x s.y)
              (Server2.Hrow c 1 s.x s.y) (Server2.Hrow c 2 s.x s.y)
              ⟨⟨s.x, s.y, s.yaw⟩, s.P, ⟨0, 0, 0⟩, none, ⟨0, 0, 0⟩⟩ d0 = some m1 ∧
            Server2.measStep (Server2.zhat c 0 s.x s.y) (Server2.zhat c 1 s.x s.y)
              (Server2.zhat c 2 s.x s.y) (Server2.Hrow c 0 s.x s.y)
              (Server2.Hrow c 1 s.x s.y) (Server2.Hrow c 2 s.x s.y) m1 d1 = some m2 ∧
            Server2.measStep (Server2.zhat c 0 s.x s.y) (Server2.zhat c 1 s.x s.y)
              (Server2.zhat c 2 s.x s.y) (Server2.Hrow c 0 s.x s.y)
              (Server2.Hrow c 1 s.x s.y) (Server2.Hrow c 2 s.x s.y) m2 d2 = some m3 ∧
            Server2.update c s d0 d1 d2 =
              some (⟨m3.mst.v0, m3.mst.v1, m3.mst.v2, s.A, m3.mP⟩, m3)) ∧
    (∃ t : Fin 3 × Fin 3 × Fin 3,
        Server2.chosenSeq ⟨Real.cos, Real.sin, Real.sqrt, Real.pi⟩ (Server2.initState ℝ)
          (17 / 2) (17 / 2) (Real.sqrt 89) = some t ∧ t.1 = t.2.1) := by
  refine ⟨?_, ?_, ?_⟩
  · intro zh0 zh1 zh2 z h0 h1 h2 P j
    exact argmin3_min _ _ _ j
  · intro c s d0 d1 d2
    rcases e0 : Server2.measStep (Server2.zhat c 0 s.x s.y) (Server2.zhat c 1 s.x s.y)
        (Server2.zhat c 2 s.x s.y) (Server2.Hrow c 0 s.x s.y) (Server2.Hrow c 1 s.x s.y)
        (Server2.Hrow c 2 s.x s.y)
        ⟨⟨s.x, s.y, s.yaw⟩, s.P, ⟨0, 0, 0⟩, none, ⟨0, 0, 0⟩⟩ d0 with _ | m1
    · left
      simp only [Server2.update]
      rw [e0]
      rfl
    · rcases e1 : Server2.measStep (Server2.zhat c 0 s.x s.y) (Server2.zhat c 1 s.x s.y)
          (Server2.zhat c 2 s.x s.y) (Server2.Hrow c 0 s.x s.y) (Server2.Hrow c 1 s.x s.y)
          (Server2.Hrow c 2 s.x s.y) m1 d1 with _ | m2
      · left
        simp only [Server2.update]
        rw [e0]
        simp only [Option.some_bind]
        rw [e1]
        rfl
      · rcases e2 : Server2.measStep (Server2.zhat c 0 s.x s.y) (Server2.zhat c 1 s.x s.y)
            (Server2.zhat c 2 s.x s.y) (Server2.Hrow c 0 s.x s.y) (Server2.Hrow c 1 s.x s.y)
            (Server2.Hrow c 2 s.x s.y) m2 d2 with _ | m3
        · left
          simp only [Server2.update]
          rw [e0]
          simp only [Option.some_bind]
          rw [e1]
          simp only [Option.some_bind]
          rw [e2]
          rfl
        · right
          refine ⟨m1, m2, m3, rfl, e1, e2, ?_⟩
          simp only [Server2.update]
          rw [e0]
          simp only [Option.some_bind]
          rw [e1]
          simp only [Option.some_bind]
          rw [e2]
          simp only [Option.some_bind]
  · refine ⟨(0, 0, 1), ?_, rfl⟩
    have hinit : Server2.initState ℝ =
        ⟨0, 0, 0, ident3 ℝ, ⟨1 / 10, 0, 0, 0, 1 / 10, 0, 0, 0, 1 / 10⟩⟩ := by
      norm_num [Server2.initState, msmul, ident3, Server2.EKF.mk.injEq, Mat3.mk.injEq]
    rw [hinit]
    simp only [Server2.chosenSeq]
    rw [zhat0_origin, zhat1_origin, zhat2_origin, hrow0_origin, hrow1_origin, hrow2_origin]
    rw [stepB0]
    simp only [Option.some_bind]
    rw [stepB1]
    simp only [Option.some_bind]
    rw [chooseB0, chooseB1, chooseB2]

/-! ## Negative-innovation-covariance scenario trace (origin pose, `P = -I`,
measurements `(100, 0, 0)`) -/

lemma sqrt89_gt_nine : (9 : ℝ) < Real.sqrt 89 := by
  have h : (9 : ℝ) = Real.sqrt (9 ^ 2) := (Real.sqrt_sq (by norm_num)).symm
  rw [h]
  exact Real.sqrt_lt_sqrt (by norm_num) (by norm_num)

lemma sqrt365_gt_nine : (9 : ℝ) < Real.sqrt (365 / 4) := by
  have h : (9 : ℝ) = Real.sqrt (9 ^ 2) := (Real.sqrt_sq (by norm_num)).symm
  rw [h]
  exact Real.sqrt_lt_sqrt (by norm_num) (by norm_num)

lemma chooseC0 :
    Server2.chosenIdx (17 / 2) (Real.sqrt 89) (Real.sqrt (365 / 4))
      ⟨-(15 / 17), 8 / 17, 0⟩ (vsmul (1 / Real.sqrt 89) ⟨5, -8, 0⟩)
      (vsmul (1 / Real.sqrt (365 / 4)) ⟨7, 13 / 2, 0⟩)
      ⟨-1, 0, 0, 0, -1, 0, 0, 0, -1⟩ (100 : ℝ) = 0 := by
  have hS0 : Server2.Sinnov (⟨-1, 0, 0, 0, -1, 0, 0, 0, -1⟩ : Mat3 ℝ)
      ⟨-(15 / 17), 8 / 17, 0⟩ = -(39999 / 40000) := by
    norm_num [Server2.Sinnov, quadForm, dot3, mulVec, Server2.Rmeas]
  have hS1 : Server2.Sinnov (⟨-1, 0, 0, 0, -1, 0, 0, 0, -1⟩ : Mat3 ℝ)
      (vsmul (1 / Real.sqrt 89) ⟨5, -8, 0⟩) = -(39999 / 40000) := by
    rw [Sinnov_vsmul, inv_sqrt89_sq]
    norm_num [quadForm, dot3, mulVec, Server2.Rmeas]
  have hS2 : Server2.Sinnov (⟨-1, 0, 0, 0, -1, 0, 0, 0, -1⟩ : Mat3 ℝ)
      (vsmul (1 / Real.sqrt (365 / 4)) ⟨7, 13 / 2, 0⟩) = -(39999 / 40000) := by
    rw [Sinnov_vsmul, inv_sqrt365_sq]
    norm_num [quadForm, dot3, mulVec, Server2.Rmeas]
  have h01 : Server2.mahScore (-(39999 / 40000) : ℝ) (100 - 17 / 2) ≤
      Server2.mahScore (-(39999 / 40000)) (100 - Real.sqrt 89) := by
    rw [mahScore_eq, mahScore_eq]
    have hb : (100 - Real.sqrt 89) ^ 2 ≤ ((100 : ℝ) - 17 / 2) ^ 2 := by
      nlinarith [sqrt89_gt_nine, sqrt89_sq, sqrt89_lt_ten]
    linarith
  have h02 : Server2.mahScore (-(39999 / 40000) : ℝ) (100 - 17 / 2) ≤
      Server2.mahScore (-(39999 / 40000)) (100 - Real.sqrt (365 / 4)) := by
    rw [mahScore_eq, mahScore_eq]
    have hb : (100 - Real.sqrt (365 / 4)) ^ 2 ≤ ((100 : ℝ) - 17 / 2) ^ 2 := by
      nlinarith [sqrt365_gt_nine, sqrt365_sq, sqrt365_lt_ten]
    linarith
  unfold Server2.chosenIdx argmin3
  rw [hS0, hS1, hS2]
  rw [if_pos ⟨h01, h02⟩]

lemma stepC0 :
    Server2.measStep (17 / 2) (Real.sqrt 89) (Real.sqrt (365 / 4))
        ⟨-(15 / 17), 8 / 17, 0⟩ (vsmul (1 / Real.sqrt 89) ⟨5, -8, 0⟩)
        (vsmul (1 / Real.sqrt (365 / 4)) ⟨7, 13 / 2, 0⟩)
        ⟨⟨0, 0, 0⟩, ⟨-1, 0, 0, 0, -1, 0, 0, 0, -1⟩, ⟨0, 0, 0⟩, none, ⟨0, 0, 0⟩⟩
        (100 : ℝ) =
      some ⟨⟨-18300000 / 226661, 9760000 / 226661, 0⟩,
        ⟨-853237 / 3853237, -1600000 / 3853237, 0,
         -1600000 / 3853237, -8999711 / 11559711, 0, 0, 0, -1⟩,
        ⟨100, 0, 0⟩, none, ⟨-111630000 / 13333, 0, 0⟩⟩ := by
  have hS0 : Server2.Sinnov (⟨-1, 0, 0, 0, -1, 0, 0, 0, -1⟩ : Mat3 ℝ)
      ⟨-(15 / 17), 8 / 17, 0⟩ = -(39999 / 40000) := by
    norm_num [Server2.Sinnov, quadForm, dot3, mulVec, Server2.Rmeas]
  have hS1 : Server2.Sinnov (⟨-1, 0, 0, 0, -1, 0, 0, 0, -1⟩ : Mat3 ℝ)
      (vsmul (1 / Real.sqrt 89) ⟨5, -8, 0⟩) = -(39999 / 40000) := by
    rw [Sinnov_vsmul, inv_sqrt89_sq]
    norm_num [quadForm, dot3, mulVec, Server2.Rmeas]
  have hS2 : Server2.Sinnov (⟨-1, 0, 0, 0, -1, 0, 0, 0, -1⟩ : Mat3 ℝ)
      (vsmul (1 / Real.sqrt (365 / 4)) ⟨7, 13 / 2, 0⟩) = -(39999 / 40000) := by
    rw [Sinnov_vsmul, inv_sqrt365_sq]
    norm_num [quadForm, dot3, mulVec, Server2.Rmeas]
  simp only [Server2.measStep]
  rw [if_neg (by rw [hS0, hS1, hS2]; norm_num), chooseC0]
  simp only [pick3_at0, vget_at0, vset_at0]
  rw [hS0]
  norm_num [Option.some.injEq, Server2.MeasState.mk.injEq, vadd, vsmul, mulVec, msymm,
    mmul, msub, madd, mtrans, msmul, outer3, ident3, Vec3.mk.injEq, Mat3.mk.injEq,
    Server2.mahScore, Server2.fillFirstEmpty]

lemma chooseC1 :
    Server2.chosenIdx (17 / 2) (Real.sqrt 89) (Real.sqrt (365 / 4))
      ⟨-(15 / 17), 8 / 17, 0⟩ (vsmul (1 / Real.sqrt 89) ⟨5, -8, 0⟩)
      (vsmul (1 / Real.sqrt (365 / 4)) ⟨7, 13 / 2, 0⟩)
      ⟨-853237 / 3853237, -1600000 / 3853237, 0,
       -1600000 / 3853237, -8999711 / 11559711, 0, 0, 0, -1⟩ (0 : ℝ) = 1 := by
  have hS0 : Server2.Sinnov
      (⟨-853237 / 3853237, -1600000 / 3853237, 0,
        -1600000 / 3853237, -8999711 / 11559711, 0, 0, 0, -1⟩ : Mat3 ℝ)
      ⟨-(15 / 17), 8 / 17, 0⟩ = 79999 / 1599960000 := by
    norm_num [Server2.Sinnov, quadForm, dot3, mulVec, Server2.Rmeas]
  have hS1 : Server2.Sinnov
      (⟨-853237 / 3853237, -1600000 / 3853237, 0,
        -1600000 / 3853237, -8999711 / 11559711, 0, 0, 0, -1⟩ : Mat3 ℝ)
      (vsmul (1 / Real.sqrt 89) ⟨5, -8, 0⟩) = -(10237942345721 / 41152571160000) := by
    rw [Sinnov_vsmul, inv_sqrt89_sq]
    norm_num [quadForm, dot3, mulVec, Server2.Rmeas]
  have hS2 : Server2.Sinnov
      (⟨-853237 / 3853237, -1600000 / 3853237, 0,
        -1600000 / 3853237, -8999711 / 11559711, 0, 0, 0, -1⟩ : Mat3 ℝ)
      (vsmul (1 / Real.sqrt (365 / 4)) ⟨7, 13 / 2, 0⟩) =
      -(30157992261097 / 33754356120000) := by
    rw [Sinnov_vsmul, inv_sqrt365_sq]
    norm_num [quadForm, dot3, mulVec, Server2.Rmeas]
  unfold Server2.chosenIdx argmin3
  rw [hS0, hS1, hS2]
  simp only [mahScore_eq, zero_sub, neg_sq]
  rw [sqrt89_sq, sqrt365_sq]
  norm_num

lemma stepC1 :
    Server2.measStep (17 / 2) (Real.sqrt 89) (Real.sqrt (365 / 4))
        ⟨-(15 / 17), 8 / 17, 0⟩ (vsmul (1 / Real.sqrt 89) ⟨5, -8, 0⟩)
        (vsmul (1 / Real.sqrt (365 / 4)) ⟨7, 13 / 2, 0⟩)
        ⟨⟨-18300000 / 226661, 9760000 / 226661, 0⟩,
         ⟨-853237 / 3853237, -1600000 / 3853237, 0,
          -1600000 / 3853237, -8999711 / 11559711, 0, 0, 0, -1⟩,
         ⟨100, 0, 0⟩, none, ⟨-111630000 / 13333, 0, 0⟩⟩ (0 : ℝ) =
      some ⟨⟨-166696202041178100000 / 2320542250023467581,
          138652283391011040000 / 2320542250023467581, 0⟩,
        ⟨967654279 / 10237942345721, 889600000 / 10237942345721, 0,
         889600000 / 10237942345721, 1089974279 / 10237942345721, 0, 0, 0, -1⟩,
        ⟨100, 0, 0⟩, none,
        ⟨-111630000 / 13333, -3662578833240000 / 10237942345721, 0⟩⟩ := by
  have hS0 : Server2.Sinnov
      (⟨-853237 / 3853237, -1600000 / 3853237, 0,
        -1600000 / 3853237, -8999711 / 11559711, 0, 0, 0, -1⟩ : Mat3 ℝ)
      ⟨-(15 / 17), 8 / 17, 0⟩ = 79999 / 1599960000 := by
    norm_num [Server2.Sinnov, quadForm, dot3, mulVec, Server2.Rmeas]
  have hS1 : Server2.Sinnov
      (⟨-853237 / 3853237, -1600000 / 3853237, 0,
        -1600000 / 3853237, -8999711 / 11559711, 0, 0, 0, -1⟩ : Mat3 ℝ)
      (vsmul (1 / Real.sqrt 89) ⟨5, -8, 0⟩) = -(10237942345721 / 41152571160000) := by
    rw [Sinnov_vsmul, inv_sqrt89_sq]
    norm_num [quadForm, dot3, mulVec, Server2.Rmeas]
  have hS2 : Server2.Sinnov
      (⟨-853237 / 3853237, -1600000 / 3853237, 0,
        -1600000 / 3853237, -8999711 / 11559711, 0, 0, 0, -1⟩ : Mat3 ℝ)
      (vsmul (1 / Real.sqrt (365 / 4)) ⟨7, 13 / 2, 0⟩) =
      -(30157992261097 / 33754356120000) := by
    rw [Sinnov_vsmul, inv_sqrt365_sq]
    norm_num [quadForm, dot3, mulVec, Server2.Rmeas]
  have hne : Real.sqrt 89 ≠ 0 := ne_of_gt sqrt89_pos
  simp only [Server2.measStep]
  rw [if_neg (by rw [hS0, hS1, hS2]; norm_num), chooseC1]
  simp only [pick3_at1, vget_at1, vset_at1]
  rw [hS1]
  simp only [Option.some.injEq, Server2.MeasState.mk.injEq]
  constructor
  · rw [mulVec_vsmul, vsmul_vsmul, vsmul_vsmul]
    rw [show ((0 : ℝ) - Real.sqrt 89) * (1 / -(10237942345721 / 41152571160000)) *
        (1 / Real.sqrt 89) = 41152571160000 / 10237942345721 by
          field_simp
          ring]
    norm_num [vadd, vsmul, mulVec, Vec3.mk.injEq]
  constructor
  · rw [outer_scaled, inv_sqrt89_sq]
    norm_num [msymm, mmul, msub, madd, mtrans, msmul, outer3, mulVec, ident3, Mat3.mk.injEq]
  refine ⟨by simp, by simp, ?_⟩
  rw [show Server2.mahScore (-(10237942345721 / 41152571160000) : ℝ) (0 - Real.sqrt 89) =
      -3662578833240000 / 10237942345721 by
        rw [mahScore_eq, zero_sub, neg_sq, sqrt89_sq]
        norm_num]

/-- C6 counterexample: with covariance `P = -I` at the origin (a state the
guard is supposed to protect against), the very first innovation covariance
`S_00 = -0.999975` is negative, yet the correction call runs to completion
(`isSome`): nothing is surfaced and no further updates are refused — the
negative `S` values are silently inverted. -/
theorem c6_counterexample :
    Server2.Sinnov (⟨-1, 0, 0, 0, -1, 0, 0, 0, -1⟩ : Mat3 ℝ)
        (Server2.Hrow ⟨Real.cos, Real.sin, Real.sqrt, Real.pi⟩ 0 0 0) < 0 ∧
    (Server2.update ⟨Real.cos, Real.sin, Real.sqrt, Real.pi⟩
        ⟨0, 0, 0, ident3 ℝ, ⟨-1, 0, 0, 0, -1, 0, 0, 0, -1⟩⟩ 100 0 0).isSome = true := by
  constructor
  · rw [hrow0_origin]
    norm_num [Server2.Sinnov, quadForm, dot3, mulVec, Server2.Rmeas]
  · simp only [Server2.update]
    rw [zhat0_origin, zhat1_origin, zhat2_origin, hrow0_origin, hrow1_origin, hrow2_origin]
    rw [stepC0]
    simp only [Option.some_bind]
    rw [stepC1]
    simp only [Option.some_bind]
    have hS0 : Server2.Sinnov
        (⟨967654279 / 10237942345721, 889600000 / 10237942345721, 0,
          889600000 / 10237942345721, 1089974279 / 10237942345721, 0, 0, 0, -1⟩ : Mat3 ℝ)
        ⟨-(15 / 17), 8 / 17, 0⟩ = 20476913505721 / 409517693828840000 := by
      norm_num [Server2.Sinnov, quadForm, dot3, mulVec, Server2.Rmeas]
    have hS1 : Server2.Sinnov
        (⟨967654279 / 10237942345721, 889600000 / 10237942345721, 0,
          889600000 / 10237942345721, 1089974279 / 10237942345721, 0, 0, 0, -1⟩ : Mat3 ℝ)
        (vsmul (1 / Real.sqrt 89) ⟨5, -8, 0⟩) = 20476913505721 / 409517693828840000 := by
      rw [Sinnov_vsmul, inv_sqrt89_sq]
      norm_num [quadForm, dot3, mulVec, Server2.Rmeas]
    have hS2 : Server2.Sinnov
        (⟨967654279 / 10237942345721, 889600000 / 10237942345721, 0,
          889600000 / 10237942345721, 1089974279 / 10237942345721, 0, 0, 0, -1⟩ : Mat3 ℝ)
        (vsmul (1 / Real.sqrt (365 / 4)) ⟨7, 13 / 2, 0⟩) =
        6328812125917633 / 29894791649505320000 := by
      rw [Sinnov_vsmul, inv_sqrt365_sq]
      norm_num [quadForm, dot3, mulVec, Server2.Rmeas]
    have h2 := measStep_some_of (17 / 2) (Real.sqrt 89) (Real.sqrt (365 / 4))
      ⟨-(15 / 17), 8 / 17, 0⟩ (vsmul (1 / Real.sqrt 89) ⟨5, -8, 0⟩)
      (vsmul (1 / Real.sqrt (365 / 4)) ⟨7, 13 / 2, 0⟩)
      ⟨⟨-166696202041178100000 / 2320542250023467581,
          138652283391011040000 / 2320542250023467581, 0⟩,
        ⟨967654279 / 10237942345721, 889600000 / 10237942345721, 0,
         889600000 / 10237942345721, 1089974279 / 10237942345721, 0, 0, 0, -1⟩,
        ⟨100, 0, 0⟩, none,
        ⟨-111630000 / 13333, -3662578833240000 / 10237942345721, 0⟩⟩ 0
      (by rw [hS0, hS1, hS2]; norm_num)
    obtain ⟨m3, hm3⟩ := Option.isSome_iff_exists.mp h2
    rw [hm3]
    simp only [Option.some_bind]
    rfl
